import Mathlib

/-!
# truthsocial-go: the authenticated client (`client/client.go`, `client/model.go`)

A shallow embedding of the client package and theorems about its
pagination loop, authentication, handle normalisation and response
classification.

Conventions of the embedding

* A Go `string` is a sequence of bytes (`GoString`); `len` is the number of
  bytes and `s[:n]` keeps the first `n` bytes.
* A Go `error` is represented by its message (`err.Error()`), so
  `fmt.Errorf("ctx: %w", err)` is the concatenation of the context and the
  wrapped message.
* The TLS transport (`cycletls`) and the standard library codecs
  (`encoding/json`, `url.Values.Encode`) are not part of the package: the
  transport is a parameter giving the reply to every call, the codecs are
  the fields of `Lib`.
* The unbounded `for { ... }` of `PullStatuses` is `pullLoop`, a total
  function whose termination is proved from the page counter.
-/

namespace TruthSocial

/-! ## Strings -/

/-- A Go string: an immutable sequence of bytes. -/
abbrev GoString := List UInt8

/-- A Go string literal, as the UTF-8 bytes of its text. -/
def str (s : String) : GoString := s.data.flatMap String.utf8EncodeChar

/-- Go `strings.HasPrefix(s, pre)`. -/
def HasPrefix (s pre : GoString) : Bool := pre.isPrefixOf s

/-- Go `strings.TrimPrefix(s, pre)`: `s` without the leading `pre` when it has one,
`s` itself otherwise. -/
def TrimPrefix (s pre : GoString) : GoString :=
  if HasPrefix s pre then s.drop pre.length else s

/-- Go `strings.Contains(s, substr)`: `substr` occurs somewhere within `s`. -/
def Contains (s substr : GoString) : Bool :=
  s.tails.any (fun t => substr.isPrefixOf t)

/-- The verb `%d` of `fmt` applied to an `int`. -/
def fmtInt (n : Int) : GoString := str (toString n)

/-! ## model.go -/

/-- The anonymous struct of the field `Account` of `Status`. -/
structure StatusAccount where
  Username : GoString
deriving DecidableEq, Repr

/-- Go `type Status struct` (model.go). -/
structure Status where
  ID : GoString
  Content : GoString
  CreatedAt : GoString
  Account : StatusAccount
  URL : GoString
  InReplyToID : GoString
  ReblogsCount : Int
  FavouritesCount : Int
  RepliesCount : Int
deriving DecidableEq, Repr

/-- Go `type Account struct` (model.go). -/
structure Account where
  ID : GoString
  Username : GoString
  DisplayName : GoString
  FollowersCount : Int
  StatusesCount : Int
  Verified : Bool
deriving DecidableEq, Repr

/-- Go `type AuthResponse struct` (model.go). -/
structure AuthResponse where
  AccessToken : GoString
  RefreshToken : GoString
  TokenType : GoString
  Scope : GoString
  CreatedAt : Int
deriving DecidableEq, Repr

/-! ## The transport and the codecs -/

/-- The fields of `cycletls.Options` that the client sets. -/
structure Options where
  Body : GoString
  Method : GoString
  Ja3 : GoString
  UserAgent : GoString
  Headers : List (GoString × GoString)
deriving DecidableEq, Repr

/-- One call `c.client.Do(url, options, method)`. -/
structure Request where
  URL : GoString
  Options : Options
  Method : GoString
deriving DecidableEq, Repr

/-- The fields of `cycletls.Response` that the client reads. -/
structure Response where
  Status : Int
  Body : GoString
deriving DecidableEq, Repr

/-- What one call of `Do` gives back: a transport error (its message) or a response. -/
abbrev DoResult := Except GoString Response

/-- Go `url.Values` with single-valued keys: the keys in the order they were first set. -/
abbrev Values := List (GoString × GoString)

/-- Go `url.Values.Set`: the key now maps to exactly this value. -/
def Values.Set (v : Values) (key value : GoString) : Values :=
  v.filter (fun p => p.1 ≠ key) ++ [(key, value)]

/-- The value a key is set to, `none` when the key is absent. -/
def Values.Lookup (v : Values) (key : GoString) : Option GoString :=
  List.lookup key v

/-- The standard library codecs the client calls. An `error` is its message. -/
structure Lib where
  /-- Go `json.Marshal` applied to the token request payload (a map of strings). -/
  jsonMarshal : List (GoString × GoString) → Except GoString GoString
  /-- Go `json.Unmarshal` into an `AuthResponse`. -/
  unmarshalAuth : GoString → Except GoString AuthResponse
  /-- Go `json.Unmarshal` into an `Account`. -/
  unmarshalAccount : GoString → Except GoString Account
  /-- Go `json.Unmarshal` into a `[]Status`. -/
  unmarshalStatuses : GoString → Except GoString (List Status)
  /-- Go `url.Values.Encode`. -/
  encode : Values → GoString

/-! ## client.go: constants -/

def baseURL : GoString := str "https://truthsocial.com"

def apiBaseURL : GoString := str "https://truthsocial.com/api"

def clientID : GoString := str "9X1Fdd-pxNsAgEDNi_SfhJWi8T-vLuV2WVzKIbkTCw4"

def clientSecret : GoString := str "ozF8jzI4968oTKFkEnsBC-UbLPCdrSv0MkXGQu2o_-M"

def userAgent : GoString :=
  str "Mozilla/5.0 (Windows NT 10.0; Win64; x64) AppleWebKit/537.36 (KHTML, like Gecko) Chrome/123.0.0.0 Safari/537.36"

/-- The `Ja3` literal every request of the client carries. -/
def ja3 : GoString :=
  str "771,4865-4866-4867-49195-49196-52393-49199-49200-52392-49171-49172-156-157-47-53,0-23-65281-10-11-35-16-5-13-51-45-43-21,29-23-24,0"

/-- The message of the error returned for a Cloudflare block (the same literal at the
four call sites). -/
def blockedMessage : GoString :=
  str "blocked by Cloudflare (status 403) - try using a VPN or different IP address"

/-- Go `type Client struct`, without the transport handle `client`, which is the
parameter `Do` of the operations. -/
structure Client where
  accessToken : GoString
  user : GoString
  pass : GoString
deriving DecidableEq, Repr

/-- The header map literal of the authenticated GET requests. -/
def bearerHeaders (c : Client) : List (GoString × GoString) :=
  [ (str "Authorization", str "Bearer " ++ c.accessToken),
    (str "Accept", str "application/json"),
    (str "Accept-Language", str "en-US,en;q=0.9"),
    (str "Accept-Encoding", str "gzip, deflate, br"),
    (str "DNT", str "1"),
    (str "Connection", str "keep-alive"),
    (str "Sec-Fetch-Dest", str "empty"),
    (str "Sec-Fetch-Mode", str "cors"),
    (str "Sec-Fetch-Site", str "same-origin") ]

/-- An authenticated GET of a URL, as built at the three call sites
(`Lookup`, `PullStatuses`, `GetStatuses`). -/
def getRequest (c : Client) (url : GoString) : Request :=
  { URL := url,
    Options :=
      { Body := [],
        Method := str "GET",
        Ja3 := ja3,
        UserAgent := userAgent,
        Headers := bearerHeaders c },
    Method := str "GET" }

/-! ## client.go: authenticate and NewClient -/

/-- The `payload` map of `authenticate`. -/
def authPayload (c : Client) : List (GoString × GoString) :=
  [ (str "client_id", clientID),
    (str "client_secret", clientSecret),
    (str "grant_type", str "password"),
    (str "username", c.user),
    (str "password", c.pass),
    (str "redirect_uri", str "urn:ietf:wg:oauth:2.0:oob"),
    (str "scope", str "read") ]

/-- The call `c.client.Do(authURL, ...)` of `authenticate`, for the marshalled payload. -/
def authRequest (payloadBytes : GoString) : Request :=
  { URL := baseURL ++ str "/oauth/token",
    Options :=
      { Body := payloadBytes,
        Method := str "POST",
        Ja3 := ja3,
        UserAgent := userAgent,
        Headers :=
          [ (str "Content-Type", str "application/json"),
            (str "Accept", str "application/json"),
            (str "Accept-Language", str "en-US,en;q=0.9"),
            (str "Accept-Encoding", str "gzip, deflate, br"),
            (str "DNT", str "1"),
            (str "Connection", str "keep-alive"),
            (str "Sec-Fetch-Dest", str "empty"),
            (str "Sec-Fetch-Mode", str "cors"),
            (str "Sec-Fetch-Site", str "same-origin") ] },
    Method := str "POST" }

/-- Go `func (c *Client) authenticate`: the client after the call and the returned
error (`none` for `nil`). -/
def authenticate (lib : Lib) (Do : Request → DoResult) (c : Client) :
    Client × Option GoString :=
  match lib.jsonMarshal (authPayload c) with
  | .error err => (c, some (str "failed to marshal payload: " ++ err))
  | .ok payloadBytes =>
    match Do (authRequest payloadBytes) with
    | .error err => (c, some (str "authentication request failed: " ++ err))
    | .ok resp =>
      if resp.Status ≠ 200 then
        if resp.Status = 403 && Contains resp.Body (str "Cloudflare") then
          (c, some blockedMessage)
        else
          let body := resp.Body
          let body := if body.length > 200 then body.take 200 ++ str "..." else body
          (c, some (str "authentication failed: status " ++ fmtInt resp.Status
                      ++ str " - " ++ body))
      else
        match lib.unmarshalAuth resp.Body with
        | .error err => (c, some (str "failed to parse auth response: " ++ err))
        | .ok authResp =>
          if authResp.AccessToken = [] then
            (c, some (str "no access token received"))
          else
            ({ c with accessToken := authResp.AccessToken }, none)

/-- Go `func NewClient`: the client, or the error when authentication fails. -/
def NewClient (lib : Lib) (Do : Request → DoResult) (user pass : GoString) :
    Except GoString Client :=
  let c : Client := { accessToken := [], user := user, pass := pass }
  match authenticate lib Do c with
  | (_, some err) => .error (str "authentication failed: " ++ err)
  | (c, none) => .ok c

/-! ## client.go: Lookup -/

/-- The call `c.client.Do(lookupURL, ...)` of `Lookup`, for the handle given by the
caller. -/
def lookupRequest (c : Client) (username : GoString) : Request :=
  let username := TrimPrefix username (str "@")
  let lookupURL := apiBaseURL ++ str "/v1/accounts/lookup?acct=" ++ username
  getRequest c lookupURL

/-- Go `func (c *Client) Lookup`. -/
def Lookup (lib : Lib) (Do : Request → DoResult) (c : Client) (username : GoString) :
    Except GoString Account :=
  match Do (lookupRequest c username) with
  | .error err => .error (str "account lookup request failed: " ++ err)
  | .ok resp =>
    if resp.Status ≠ 200 then
      if resp.Status = 403 && Contains resp.Body (str "Cloudflare") then
        .error blockedMessage
      else
        let body := resp.Body
        let body := if body.length > 200 then body.take 200 ++ str "..." else body
        .error (str "account lookup failed: status " ++ fmtInt resp.Status
                  ++ str " - " ++ body)
    else
      match lib.unmarshalAccount resp.Body with
      | .error err => .error (str "failed to parse account data: " ++ err)
      | .ok account => .ok account

/-! ## client.go: PullStatuses -/

/-- One page request: the `url.Values` built for it and the call made with them. -/
structure PageCall where
  params : Values
  request : Request
deriving DecidableEq, Repr

/-- What `PullStatuses` returns (`statuses`, `err`; a `nil` slice is `[]`, a `nil` error
is `none`), with the page requests it issued, oldest first. -/
structure PullResult where
  statuses : List Status
  err : Option GoString
  log : List PageCall
deriving DecidableEq, Repr

/-- The variables of the loop of `PullStatuses` at the start of an iteration, with the
page requests issued so far. -/
structure LoopState where
  allStatuses : List Status
  maxID : GoString
  pageCounter : Nat
  log : List PageCall
deriving DecidableEq, Repr

/-- The `params` of one iteration: `exclude_replies` when asked for, `max_id` when the
cursor is not the empty string, and the page size. -/
def pageParams (excludeReplies : Bool) (maxID : GoString) : Values :=
  let params : Values := []
  let params :=
    if excludeReplies then Values.Set params (str "exclude_replies") (str "true") else params
  let params := if maxID ≠ [] then Values.Set params (str "max_id") maxID else params
  Values.Set params (str "limit") (str "40")

/-- The call `c.client.Do(statusURL, ...)` of one iteration. -/
def pageRequest (lib : Lib) (c : Client) (account : Account) (excludeReplies : Bool)
    (maxID : GoString) : Request :=
  let statusURL := apiBaseURL ++ str "/v1/accounts/" ++ account.ID ++ str "/statuses"
  let params := pageParams excludeReplies maxID
  let statusURL :=
    if params.length > 0 then statusURL ++ str "?" ++ lib.encode params else statusURL
  getRequest c statusURL

/-- The page request of an iteration whose cursor is `maxID`. -/
def pageCall (lib : Lib) (c : Client) (account : Account) (excludeReplies : Bool)
    (maxID : GoString) : PageCall :=
  { params := pageParams excludeReplies maxID,
    request := pageRequest lib c account excludeReplies maxID }

/-- The `for { ... }` of `PullStatuses`, from the start of an iteration. `Do n` is the reply
of the transport to the call number `n` of the operation (the lookup is call `0`, the
`j`-th page request is call `j`). The pause between two pages has no effect on the
result. -/
def pullLoop (lib : Lib) (Do : Nat → Request → DoResult) (c : Client) (account : Account)
    (excludeReplies : Bool) (limit : Int) (st : LoopState) : PullResult :=
  let call := pageCall lib c account excludeReplies st.maxID
  let log := st.log ++ [call]
  match Do (st.log.length + 1) call.request with
  | .error err => ⟨[], some (str "statuses request failed: " ++ err), log⟩
  | .ok resp =>
    if resp.Status ≠ 200 then
      if resp.Status = 403 && Contains resp.Body (str "Cloudflare") then
        ⟨[], some blockedMessage, log⟩
      else
        let body := resp.Body
        let body := if body.length > 200 then body.take 200 ++ str "..." else body
        ⟨[], some (str "statuses request failed: status " ++ fmtInt resp.Status
                    ++ str " - " ++ body), log⟩
    else
      match lib.unmarshalStatuses resp.Body with
      | .error err => ⟨[], some (str "failed to parse statuses data: " ++ err), log⟩
      | .ok statuses =>
        if statuses.length = 0 then
          ⟨st.allStatuses, none, log⟩
        else
          let allStatuses := st.allStatuses ++ statuses
          let pageCounter := st.pageCounter + 1
          if limit > 0 ∧ (allStatuses.length : Int) ≥ limit then
            let allStatuses :=
              if (allStatuses.length : Int) > limit then allStatuses.take limit.toNat
              else allStatuses
            ⟨allStatuses, none, log⟩
          else
            let maxID :=
              match statuses.getLast? with
              | some lastStatus => lastStatus.ID
              | none => st.maxID
            if pageCounter > 50 then
              ⟨allStatuses, none, log⟩
            else
              pullLoop lib Do c account excludeReplies limit
                ⟨allStatuses, maxID, pageCounter, log⟩
termination_by 51 - st.pageCounter
decreasing_by
  simp_wf
  omega

/-- Go `func (c *Client) PullStatuses`. -/
def PullStatuses (lib : Lib) (Do : Nat → Request → DoResult) (c : Client)
    (username : GoString) (excludeReplies : Bool) (limit : Int) : PullResult :=
  match Lookup lib (Do 0) c username with
  | .error err =>
    ⟨[], some (str "failed to lookup user " ++ username ++ str ": " ++ err), []⟩
  | .ok account =>
    pullLoop lib Do c account excludeReplies limit
      { allStatuses := [], maxID := [], pageCounter := 0, log := [] }

/-! ## client.go: GetStatuses -/

/-- The call `c.client.Do(statusURL, ...)` of `GetStatuses`. -/
def statusesRequest (c : Client) (accountID : GoString) (limit : Int) : Request :=
  let statusURL := apiBaseURL ++ str "/v1/accounts/" ++ accountID ++ str "/statuses?limit="
    ++ fmtInt limit ++ str "&exclude_replies=true&exclude_reblogs=true"
  getRequest c statusURL

/-- Go `func (c *Client) GetStatuses`. -/
def GetStatuses (lib : Lib) (Do : Request → DoResult) (c : Client) (accountID : GoString)
    (limit : Int) : Except GoString (List Status) :=
  match Do (statusesRequest c accountID limit) with
  | .error err => .error (str "statuses request failed: " ++ err)
  | .ok resp =>
    if resp.Status ≠ 200 then
      if resp.Status = 403 && Contains resp.Body (str "Cloudflare") then
        .error blockedMessage
      else
        let body := resp.Body
        let body := if body.length > 200 then body.take 200 ++ str "..." else body
        .error (str "statuses request failed: status " ++ fmtInt resp.Status
                  ++ str " - " ++ body)
    else
      match lib.unmarshalStatuses resp.Body with
      | .error err => .error (str "failed to parse statuses data: " ++ err)
      | .ok statuses => .ok statuses

/-! ## Notions used to state the properties -/

/-- The page a reply carries: the decoded post list of a reply with status 200 whose body
decodes, `none` for a reply that fails (transport error, status other than 200, or a
body that does not decode). -/
def decodedPage (lib : Lib) (reply : DoResult) : Option (List Status) :=
  match reply with
  | .error _ => none
  | .ok resp =>
    if resp.Status = 200 then
      match lib.unmarshalStatuses resp.Body with
      | .ok page => some page
      | .error _ => none
    else none

/-- The error with which a page fetch fails on a reply (the three failure branches of the
loop body), `none` for a reply that carries a page. -/
def pageError (lib : Lib) (reply : DoResult) : Option GoString :=
  match reply with
  | .error err => some (str "statuses request failed: " ++ err)
  | .ok resp =>
    if resp.Status ≠ 200 then
      if resp.Status = 403 && Contains resp.Body (str "Cloudflare") then
        some blockedMessage
      else
        some (str "statuses request failed: status " ++ fmtInt resp.Status ++ str " - "
          ++ (if resp.Body.length > 200 then resp.Body.take 200 ++ str "..." else resp.Body))
    else
      match lib.unmarshalStatuses resp.Body with
      | .error err => some (str "failed to parse statuses data: " ++ err)
      | .ok _ => none

/-- The body excerpt of an error for a status other than 200: the block
`if len(body) > 200 { body = body[:200] + "..." }`, the same at the four call sites. -/
def excerpt (body : GoString) : GoString :=
  if body.length > 200 then body.take 200 ++ str "..." else body

/-- The transport answers call `n` with status 200 and a body that decodes to `page`,
whatever the request. -/
def ServesPage (lib : Lib) (Do : Nat → Request → DoResult) (n : Nat)
    (page : List Status) : Prop :=
  ∀ req, decodedPage lib (Do n req) = some page

/-- The id of the last post of a page (the empty string for an empty page). -/
def lastID (page : List Status) : GoString :=
  match page.getLast? with
  | some lastStatus => lastStatus.ID
  | none => []

/-- The reply of the transport to the page request of the iteration that starts in `st`. -/
def pageReply (lib : Lib) (Do : Nat → Request → DoResult) (c : Client) (account : Account)
    (excludeReplies : Bool) (st : LoopState) : DoResult :=
  Do (st.log.length + 1) (pageRequest lib c account excludeReplies st.maxID)

/-- The log once the page request of the iteration that starts in `st` is issued. -/
def logAfter (lib : Lib) (c : Client) (account : Account) (excludeReplies : Bool)
    (st : LoopState) : List PageCall :=
  st.log ++ [pageCall lib c account excludeReplies st.maxID]

/-- The state in which the next iteration starts, after `page` was appended. -/
def nextState (lib : Lib) (c : Client) (account : Account) (excludeReplies : Bool)
    (st : LoopState) (page : List Status) : LoopState :=
  { allStatuses := st.allStatuses ++ page,
    maxID := lastID page,
    pageCounter := st.pageCounter + 1,
    log := logAfter lib c account excludeReplies st }

/-- The transport answers the calls `n`, `n + 1`, ... with the pages `ps`, in this order,
whatever the requests. -/
def ServesPages (lib : Lib) (Do : Nat → Request → DoResult) (n : Nat)
    (ps : List (List Status)) : Prop :=
  ∀ i (h : i < ps.length), ServesPage lib Do (n + i) (ps.get ⟨i, h⟩)

/-- The transport answers the page requests that the loop issues from call `n` and cursor
`maxID` on with the pages `ps`, in this order: the request built from the cursor `maxID`
with the first page, the request built from the last id of that page with the second, and
so on. Only the replies to these requests are constrained. -/
def ServesOnCursors (lib : Lib) (Do : Nat → Request → DoResult) (c : Client)
    (account : Account) (excludeReplies : Bool) :
    Nat → GoString → List (List Status) → Prop
  | _, _, [] => True
  | n, maxID, p :: ps =>
    decodedPage lib (Do n (pageRequest lib c account excludeReplies maxID)) = some p
      ∧ ServesOnCursors lib Do c account excludeReplies (n + 1) (lastID p) ps

/-- The state in which an iteration starts after the pages `ps` were appended one after
the other, from the state `st`. -/
def advance (lib : Lib) (c : Client) (account : Account) (excludeReplies : Bool)
    (st : LoopState) (ps : List (List Status)) : LoopState :=
  ps.foldl (nextState lib c account excludeReplies) st

/-! ## The response classifier of the specification, and what follows the status check -/

/-- The classes a status and a body fall into before any decoding. -/
inductive ResponseClass where
  | success
  | accessBlocked
  | remoteError
deriving DecidableEq, Repr

/-- The response classifier in the words of the specification: success for the status 200,
access blocked for the status 403 with a body that contains the marker "Cloudflare", and
remote error for every other status that is not 200. -/
def specClassify (status : Int) (body : GoString) : ResponseClass :=
  if status = 200 then .success
  else if status = 403 ∧ Contains body (str "Cloudflare") = true then .accessBlocked
  else .remoteError

/-- The part of `authenticate` that follows the status check: decoding the body of a reply
with status 200 and storing the token. -/
def authDecode (lib : Lib) (c : Client) (body : GoString) : Client × Option GoString :=
  match lib.unmarshalAuth body with
  | .error err => (c, some (str "failed to parse auth response: " ++ err))
  | .ok authResp =>
    if authResp.AccessToken = [] then
      (c, some (str "no access token received"))
    else
      ({ c with accessToken := authResp.AccessToken }, none)

/-- The part of `Lookup` that follows the status check. -/
def lookupDecode (lib : Lib) (body : GoString) : Except GoString Account :=
  match lib.unmarshalAccount body with
  | .error err => .error (str "failed to parse account data: " ++ err)
  | .ok account => .ok account

/-- The part of `GetStatuses` that follows the status check. -/
def statusesDecode (lib : Lib) (body : GoString) : Except GoString (List Status) :=
  match lib.unmarshalStatuses body with
  | .error err => .error (str "failed to parse statuses data: " ++ err)
  | .ok statuses => .ok statuses

/-- The part of an iteration of the loop of `PullStatuses` that follows the status check,
for the body of a reply with status 200: decoding the page, the three ways of leaving the
loop and the next iteration. -/
def pageDecode (lib : Lib) (Do : Nat → Request → DoResult) (c : Client) (account : Account)
    (excludeReplies : Bool) (limit : Int) (st : LoopState) (body : GoString) : PullResult :=
  let call := pageCall lib c account excludeReplies st.maxID
  let log := st.log ++ [call]
  match lib.unmarshalStatuses body with
  | .error err => ⟨[], some (str "failed to parse statuses data: " ++ err), log⟩
  | .ok statuses =>
    if statuses.length = 0 then
      ⟨st.allStatuses, none, log⟩
    else
      let allStatuses := st.allStatuses ++ statuses
      let pageCounter := st.pageCounter + 1
      if limit > 0 ∧ (allStatuses.length : Int) ≥ limit then
        let allStatuses :=
          if (allStatuses.length : Int) > limit then allStatuses.take limit.toNat
          else allStatuses
        ⟨allStatuses, none, log⟩
      else
        let maxID :=
          match statuses.getLast? with
          | some lastStatus => lastStatus.ID
          | none => st.maxID
        if pageCounter > 50 then
          ⟨allStatuses, none, log⟩
        else
          pullLoop lib Do c account excludeReplies limit
            ⟨allStatuses, maxID, pageCounter, log⟩

/-! ## A small upstream for the examples -/

/-- A post that has the given id and nothing else. -/
def postWithID (id : GoString) : Status :=
  { ID := id, Content := [], CreatedAt := [], Account := { Username := [] }, URL := [],
    InReplyToID := [], ReblogsCount := 0, FavouritesCount := 0, RepliesCount := 0 }

/-- Codecs for the examples: the body of a token reply is the access token, the body of a
lookup reply is the account id, and each byte `b` of the body of a statuses reply is a
post whose id is the byte `b` alone, except that the byte `0` is a post with the empty
id. -/
def exampleLib : Lib :=
  { jsonMarshal := fun _ => .ok (str "payload"),
    unmarshalAuth := fun body =>
      .ok { AccessToken := body, RefreshToken := [], TokenType := [], Scope := [],
            CreatedAt := 0 },
    unmarshalAccount := fun body =>
      .ok { ID := body, Username := [], DisplayName := [], FollowersCount := 0,
            StatusesCount := 0, Verified := false },
    unmarshalStatuses := fun body =>
      .ok (body.map (fun b => postWithID (if b = 0 then [] else [b]))),
    encode := fun _ => [] }

/-- An upstream that answers call `n` with status 200 and the `n`-th of the given bodies
(the empty body once they are used up), whatever the request. -/
def serve (bodies : List GoString) : Nat → Request → DoResult :=
  fun n _ => .ok { Status := 200, Body := bodies.getD n [] }

/-- An upstream that answers the lookup (call `0`) with the body `first` and every later
call with the same body `body`, all with status 200. -/
def serveForever (first body : GoString) : Nat → Request → DoResult :=
  fun n _ => .ok { Status := 200, Body := if n = 0 then first else body }

/-- An upstream that answers call `n` with status 200 and the `n`-th of the given bodies,
and every call after them with the reply `last`. -/
def serveThen (bodies : List GoString) (last : DoResult) : Nat → Request → DoResult :=
  fun n _ =>
    match bodies.get? n with
    | some body => .ok { Status := 200, Body := body }
    | none => last

/-- The order of byte strings by which Go sorts the keys of a query. -/
def lexLE : GoString → GoString → Bool
  | [], _ => true
  | _ :: _, [] => false
  | a :: as, b :: bs =>
    if a.toNat < b.toNat then true
    else if b.toNat < a.toNat then false
    else lexLE as bs

/-- One parameter put at its place among parameters sorted by key. -/
def insertParam (p : GoString × GoString) : Values → Values
  | [] => [p]
  | q :: qs => if lexLE p.1 q.1 then p :: q :: qs else q :: insertParam p qs

/-- The parameters sorted by key. -/
def sortParams (v : Values) : Values :=
  v.foldr insertParam []

/-- Go `url.Values.Encode` on keys and values that need no escaping (letters, digits and
the underscore): `key=value` for each key, sorted by key and joined by `&`. -/
def encodeQuery (v : Values) : GoString :=
  (List.intersperse (str "&") ((sortParams v).map (fun p => p.1 ++ str "=" ++ p.2))).flatten

/-- The codecs of the examples with the query encoding of Go. -/
def queryLib : Lib :=
  { exampleLib with encode := encodeQuery }

/-- An upstream that looks at the request: it answers a request whose URL is in the table
with status 200 and the body the table gives for it, and fails on every other request. -/
def serveURL (table : List (GoString × GoString)) : Request → DoResult :=
  fun req =>
    match List.lookup req.URL table with
    | some body => .ok { Status := 200, Body := body }
    | none => .error (str "unexpected request")

/-- A client for the examples. -/
def exampleClient : Client :=
  { accessToken := str "token", user := str "user", pass := str "pass" }

/-! ## The loop, one iteration at a time -/

section Loop

variable (lib : Lib) (Do : Nat → Request → DoResult) (c : Client) (account : Account)
  (excludeReplies : Bool) (limit : Int)

theorem decodedPage_eq_some {reply : DoResult} {page : List Status}
    (h : decodedPage lib reply = some page) :
    ∃ body, reply = .ok ⟨200, body⟩ ∧ lib.unmarshalStatuses body = .ok page := by
  unfold decodedPage at h
  split at h
  · exact absurd h (by simp)
  · rename_i resp
    split at h
    · rename_i h200
      split at h
      · rename_i pg hpg
        obtain ⟨st, bd⟩ := resp
        simp only at h200 hpg
        subst h200
        refine ⟨bd, rfl, ?_⟩
        rw [hpg]
        simp only [Option.some.injEq] at h
        rw [h]
      · exact absurd h (by simp)
    · exact absurd h (by simp)

theorem pageError_isSome_of_decodedPage_none {reply : DoResult}
    (h : decodedPage lib reply = none) : (pageError lib reply).isSome = true := by
  unfold decodedPage at h
  unfold pageError
  split at h
  · simp
  · rename_i resp
    split at h
    · rename_i h200
      split at h
      · exact absurd h (by simp)
      · rename_i e he
        simp [h200, he]
    · rename_i h200
      simp only [ne_eq, h200, not_false_eq_true, if_true]
      split <;> simp

/-- An iteration whose reply fails returns the failure and no posts. -/
theorem pullLoop_fail (st : LoopState)
    (h : decodedPage lib (pageReply lib Do c account excludeReplies st) = none) :
    pullLoop lib Do c account excludeReplies limit st
      = ⟨[], pageError lib (pageReply lib Do c account excludeReplies st),
          logAfter lib c account excludeReplies st⟩ := by
  rw [pullLoop]
  simp only [pageReply] at h ⊢
  simp only [pageCall, logAfter]
  cases hrep : Do (st.log.length + 1) (pageRequest lib c account excludeReplies st.maxID) with
  | error e => simp only [pageError]
  | ok resp =>
    rw [hrep] at h
    simp only [decodedPage] at h
    simp only [pageError]
    by_cases h200 : resp.Status = 200
    · rw [if_pos h200] at h
      rw [if_neg (by simp [h200]), if_neg (by simp [h200])]
      cases hdec : lib.unmarshalStatuses resp.Body with
      | error e => simp only
      | ok page => simp [hdec] at h
    · simp only [ne_eq, h200, not_false_eq_true, if_true]
      by_cases hb : (decide (resp.Status = 403) && Contains resp.Body (str "Cloudflare")) = true
      · simp only [hb, if_true]
      · simp only [hb, Bool.false_eq_true, if_false]

/-- An iteration whose reply carries a page. -/
theorem pullLoop_served (st : LoopState) (page : List Status)
    (h : decodedPage lib (pageReply lib Do c account excludeReplies st) = some page) :
    pullLoop lib Do c account excludeReplies limit st
      = if page.length = 0 then
          ⟨st.allStatuses, none, logAfter lib c account excludeReplies st⟩
        else if limit > 0 ∧ ((st.allStatuses ++ page).length : Int) ≥ limit then
          ⟨if ((st.allStatuses ++ page).length : Int) > limit
              then (st.allStatuses ++ page).take limit.toNat else st.allStatuses ++ page,
            none, logAfter lib c account excludeReplies st⟩
        else if st.pageCounter + 1 > 50 then
          ⟨st.allStatuses ++ page, none, logAfter lib c account excludeReplies st⟩
        else
          pullLoop lib Do c account excludeReplies limit
            (nextState lib c account excludeReplies st page) := by
  obtain ⟨body, h, hd⟩ := decodedPage_eq_some lib h
  simp only [pageReply] at h
  rw [pullLoop]
  simp only [pageCall, h, hd, logAfter, nextState]
  rw [if_neg (by simp)]
  by_cases hp : page.length = 0
  · simp only [hp, if_true]
  · cases hs : page.getLast? with
    | none =>
      rw [List.getLast?_eq_none_iff] at hs
      simp [hs] at hp
    | some s => simp only [hp, lastID, hs, if_false]

/-- Induction along the iterations of the loop: a property of a state and the result of
the loop from it holds when it holds at each of the four ways an iteration can end the
loop and is carried back over an iteration that continues. -/
theorem pullLoop_induct (P : LoopState → PullResult → Prop)
    (hfail : ∀ st, decodedPage lib (pageReply lib Do c account excludeReplies st) = none →
      P st ⟨[], pageError lib (pageReply lib Do c account excludeReplies st),
        logAfter lib c account excludeReplies st⟩)
    (hempty : ∀ st, decodedPage lib (pageReply lib Do c account excludeReplies st) = some [] →
      P st ⟨st.allStatuses, none, logAfter lib c account excludeReplies st⟩)
    (hlimit : ∀ st page,
      decodedPage lib (pageReply lib Do c account excludeReplies st) = some page →
      page ≠ [] → limit > 0 → ((st.allStatuses ++ page).length : Int) ≥ limit →
      P st ⟨if ((st.allStatuses ++ page).length : Int) > limit
              then (st.allStatuses ++ page).take limit.toNat else st.allStatuses ++ page,
            none, logAfter lib c account excludeReplies st⟩)
    (hsafety : ∀ st page,
      decodedPage lib (pageReply lib Do c account excludeReplies st) = some page →
      page ≠ [] → ¬ (limit > 0 ∧ ((st.allStatuses ++ page).length : Int) ≥ limit) →
      st.pageCounter + 1 > 50 →
      P st ⟨st.allStatuses ++ page, none, logAfter lib c account excludeReplies st⟩)
    (hnext : ∀ st page,
      decodedPage lib (pageReply lib Do c account excludeReplies st) = some page →
      page ≠ [] → ¬ (limit > 0 ∧ ((st.allStatuses ++ page).length : Int) ≥ limit) →
      st.pageCounter + 1 ≤ 50 →
      P (nextState lib c account excludeReplies st page)
        (pullLoop lib Do c account excludeReplies limit
          (nextState lib c account excludeReplies st page)) →
      P st (pullLoop lib Do c account excludeReplies limit
          (nextState lib c account excludeReplies st page)))
    (st : LoopState) : P st (pullLoop lib Do c account excludeReplies limit st) := by
  generalize hm : 51 - st.pageCounter = m
  induction m using Nat.strong_induction_on generalizing st with
  | _ m ih =>
    cases hr : decodedPage lib (pageReply lib Do c account excludeReplies st) with
    | none =>
      rw [pullLoop_fail lib Do c account excludeReplies limit st hr]
      exact hfail st hr
    | some page =>
      rw [pullLoop_served lib Do c account excludeReplies limit st page hr]
      by_cases hp : page.length = 0
      · rw [if_pos hp]
        have hp0 : page = [] := List.length_eq_zero.mp hp
        subst hp0
        exact hempty st hr
      · have hne : page ≠ [] := fun h0 => hp (by rw [h0]; rfl)
        rw [if_neg hp]
        by_cases hl : limit > 0 ∧ ((st.allStatuses ++ page).length : Int) ≥ limit
        · rw [if_pos hl]
          exact hlimit st page hr hne hl.1 hl.2
        · rw [if_neg hl]
          by_cases hs : st.pageCounter + 1 > 50
          · rw [if_pos hs]
            exact hsafety st page hr hne hl hs
          · rw [if_neg hs]
            have hle : st.pageCounter + 1 ≤ 50 := by omega
            apply hnext st page hr hne hl hle
            apply ih (51 - (st.pageCounter + 1)) _ _ rfl
            subst hm
            omega

/-- With a positive limit, the loop keeps the accumulated length within the limit. -/
theorem pullLoop_length_le (hpos : 0 < limit) (st : LoopState)
    (hst : (st.allStatuses.length : Int) < limit) :
    ((pullLoop lib Do c account excludeReplies limit st).statuses.length : Int) ≤ limit := by
  revert hst
  refine pullLoop_induct lib Do c account excludeReplies limit
    (fun st r => (st.allStatuses.length : Int) < limit → (r.statuses.length : Int) ≤ limit)
    ?_ ?_ ?_ ?_ ?_ st
  · intro st _ _
    simp only [List.length_nil, Nat.cast_zero]
    omega
  · intro st _ hst
    simp only
    omega
  · intro st page _ _ _ hge _
    simp only
    split
    · rw [List.length_take]
      omega
    · omega
  · intro st page _ _ hl _ _
    simp only
    omega
  · intro st page _ _ hl _ ih _
    apply ih
    simp only [nextState]
    omega

/-! ### Runs over pages that are served -/

theorem servesPages_cons {n : Nat} {p : List Status} {ps : List (List Status)}
    (h : ServesPages lib Do n (p :: ps)) :
    ServesPage lib Do n p ∧ ServesPages lib Do (n + 1) ps := by
  constructor
  · exact h 0 (by simp)
  · intro i hi
    have := h (i + 1) (by simpa using hi)
    simpa [Nat.add_assoc, Nat.add_comm 1 i] using this

theorem advance_allStatuses (ps : List (List Status)) (st : LoopState) :
    (advance lib c account excludeReplies st ps).allStatuses
      = st.allStatuses ++ ps.flatten := by
  induction ps generalizing st with
  | nil => simp [advance]
  | cons p ps ih =>
    have := ih (nextState lib c account excludeReplies st p)
    simp only [advance, List.foldl_cons] at this ⊢
    rw [this]
    simp [nextState]

theorem advance_pageCounter (ps : List (List Status)) (st : LoopState) :
    (advance lib c account excludeReplies st ps).pageCounter
      = st.pageCounter + ps.length := by
  induction ps generalizing st with
  | nil => simp [advance]
  | cons p ps ih =>
    have := ih (nextState lib c account excludeReplies st p)
    simp only [advance, List.foldl_cons] at this ⊢
    rw [this]
    simp only [nextState, List.length_cons]
    omega

theorem advance_log_length (ps : List (List Status)) (st : LoopState) :
    (advance lib c account excludeReplies st ps).log.length
      = st.log.length + ps.length := by
  induction ps generalizing st with
  | nil => simp [advance]
  | cons p ps ih =>
    have := ih (nextState lib c account excludeReplies st p)
    simp only [advance, List.foldl_cons] at this ⊢
    rw [this]
    simp only [nextState, logAfter, List.length_append, List.length_cons, List.length_nil]
    omega

/-- The requests issued up to and including the one that follows the pages `ps`: their
cursors are the cursor of the start and then the last id of each page. -/
theorem logAfter_advance (ps : List (List Status)) (st : LoopState) :
    logAfter lib c account excludeReplies (advance lib c account excludeReplies st ps)
      = st.log ++ (st.maxID :: ps.map lastID).map
          (pageCall lib c account excludeReplies) := by
  induction ps generalizing st with
  | nil => simp [advance, logAfter]
  | cons p ps ih =>
    have := ih (nextState lib c account excludeReplies st p)
    simp only [advance, List.foldl_cons] at this ⊢
    rw [this]
    simp [nextState, logAfter]

/-- Over non-empty pages that are served, do not reach the limit and keep the page counter
within 50, the loop goes on from the state after them. -/
theorem pullLoop_run (ps : List (List Status)) (st : LoopState)
    (hserve : ServesPages lib Do (st.log.length + 1) ps)
    (hne : ∀ p ∈ ps, p ≠ [])
    (hlim : limit ≤ 0 ∨ ((st.allStatuses ++ ps.flatten).length : Int) < limit)
    (hpc : st.pageCounter + ps.length ≤ 50) :
    pullLoop lib Do c account excludeReplies limit st
      = pullLoop lib Do c account excludeReplies limit
          (advance lib c account excludeReplies st ps) := by
  induction ps generalizing st with
  | nil => simp [advance]
  | cons p ps ih =>
    obtain ⟨h0, hrest⟩ := servesPages_cons lib Do hserve
    have hp : p ≠ [] := hne p (by simp)
    have hlen : ¬ p.length = 0 := fun h => hp (List.length_eq_zero.mp h)
    simp only [List.length_cons] at hpc
    have hl : ¬ (limit > 0 ∧ ((st.allStatuses ++ p).length : Int) ≥ limit) := by
      rintro ⟨h1, h2⟩
      rcases hlim with h | h
      · omega
      · simp only [List.flatten_cons, List.length_append, Nat.cast_add] at h h2
        omega
    rw [pullLoop_served lib Do c account excludeReplies limit st p (h0 _),
      if_neg hlen, if_neg hl, if_neg (by omega)]
    have key := ih (nextState lib c account excludeReplies st p)
      (by simpa [nextState, logAfter] using hrest)
      (fun q hq => hne q (by simp [hq]))
      (by simpa [nextState, List.append_assoc] using hlim)
      (by simp only [nextState]; omega)
    rw [key]
    simp [advance]

theorem servesPages_append {n : Nat} {p : List Status} {ps : List (List Status)}
    (h : ServesPages lib Do n (ps ++ [p])) :
    ServesPages lib Do n ps ∧ ServesPage lib Do (n + ps.length) p := by
  constructor
  · intro i hi
    have := h i (by simp; omega)
    simpa [List.getElem_append_left hi] using this
  · have := h ps.length (by simp)
    simpa using this

/-- The `max_id` parameter of a page request: the cursor, and no parameter at all for the
empty cursor. -/
theorem pageParams_max_id (maxID : GoString) :
    Values.Lookup (pageParams excludeReplies maxID) (str "max_id")
      = if maxID = [] then none else some maxID := by
  have h1 : (str "max_id" == str "exclude_replies") = false := by decide
  have h2 : (str "max_id" == str "limit") = false := by decide
  have h3 : (str "max_id" = str "limit") = False := by simp; decide
  have h4 : (str "exclude_replies" = str "limit") = False := by simp; decide
  have h5 : (str "exclude_replies" = str "max_id") = False := by simp; decide
  cases excludeReplies <;> by_cases hm : maxID = [] <;>
    simp [pageParams, Values.Set, Values.Lookup, List.lookup, hm, h1, h2, h3, h4, h5,
      List.filter]

/-- Pages that are served and then an empty page: the loop returns the pages in the order
served. -/
theorem pullLoop_exhaust (ps : List (List Status)) (st : LoopState)
    (hserve : ServesPages lib Do (st.log.length + 1) ps)
    (hne : ∀ p ∈ ps, p ≠ [])
    (hlim : limit ≤ 0 ∨ ((st.allStatuses ++ ps.flatten).length : Int) < limit)
    (hpc : st.pageCounter + ps.length ≤ 50)
    (hend : ServesPage lib Do (st.log.length + 1 + ps.length) []) :
    pullLoop lib Do c account excludeReplies limit st
      = ⟨st.allStatuses ++ ps.flatten, none,
          st.log ++ (st.maxID :: ps.map lastID).map
            (pageCall lib c account excludeReplies)⟩ := by
  rw [pullLoop_run lib Do c account excludeReplies limit ps st hserve hne hlim hpc]
  have hreply : decodedPage lib (pageReply lib Do c account excludeReplies
      (advance lib c account excludeReplies st ps)) = some [] := by
    have := hend (pageRequest lib c account excludeReplies
      (advance lib c account excludeReplies st ps).maxID)
    simpa [pageReply, advance_log_length, Nat.add_assoc, Nat.add_comm 1 ps.length,
      Nat.add_left_comm] using this
  rw [pullLoop_served lib Do c account excludeReplies limit _ [] hreply, if_pos List.length_nil,
    advance_allStatuses, logAfter_advance]

/-- Pages that are served below the limit and then a page with which the limit is
reached: the loop returns the first `limit` posts. -/
theorem pullLoop_reach_limit (ps : List (List Status)) (p : List Status) (st : LoopState)
    (hserve : ServesPages lib Do (st.log.length + 1) (ps ++ [p]))
    (hne : ∀ q ∈ ps ++ [p], q ≠ [])
    (hbelow : ((st.allStatuses ++ ps.flatten).length : Int) < limit)
    (hreach : limit ≤ ((st.allStatuses ++ (ps ++ [p]).flatten).length : Int))
    (hpc : st.pageCounter + ps.length ≤ 50) :
    pullLoop lib Do c account excludeReplies limit st
      = ⟨(st.allStatuses ++ (ps ++ [p]).flatten).take limit.toNat, none,
          st.log ++ (st.maxID :: ps.map lastID).map
            (pageCall lib c account excludeReplies)⟩ := by
  obtain ⟨hps, hp⟩ := servesPages_append lib Do hserve
  rw [pullLoop_run lib Do c account excludeReplies limit ps st hps
    (fun q hq => hne q (by simp [hq])) (Or.inr hbelow) hpc]
  have hreply : decodedPage lib (pageReply lib Do c account excludeReplies
      (advance lib c account excludeReplies st ps)) = some p := by
    have := hp (pageRequest lib c account excludeReplies
      (advance lib c account excludeReplies st ps).maxID)
    simpa [pageReply, advance_log_length, Nat.add_assoc, Nat.add_comm 1 ps.length,
      Nat.add_left_comm] using this
  have hpne : ¬ p.length = 0 := fun h => hne p (by simp) (List.length_eq_zero.mp h)
  have hall : st.allStatuses ++ (ps ++ [p]).flatten = st.allStatuses ++ ps.flatten ++ p := by
    simp
  have hpos : limit > 0 := by
    have : (0 : Int) ≤ ((st.allStatuses ++ ps.flatten).length : Int) := Int.natCast_nonneg _
    omega
  rw [hall] at hreach ⊢
  rw [pullLoop_served lib Do c account excludeReplies limit _ p hreply, if_neg hpne,
    advance_allStatuses, logAfter_advance, if_pos ⟨hpos, hreach⟩]
  congr 1
  split
  · rfl
  · rename_i hgt
    rw [List.take_of_length_le]
    omega

/-- Pages that are served up to a page counter of 50 and then one more non-empty page,
the limit not being reached: the loop stops there and returns all of them. -/
theorem pullLoop_safety_stop (ps : List (List Status)) (p : List Status) (st : LoopState)
    (hserve : ServesPages lib Do (st.log.length + 1) (ps ++ [p]))
    (hne : ∀ q ∈ ps ++ [p], q ≠ [])
    (hlim : limit ≤ 0 ∨ ((st.allStatuses ++ (ps ++ [p]).flatten).length : Int) < limit)
    (hpc : st.pageCounter + ps.length = 50) :
    pullLoop lib Do c account excludeReplies limit st
      = ⟨st.allStatuses ++ (ps ++ [p]).flatten, none,
          st.log ++ (st.maxID :: ps.map lastID).map
            (pageCall lib c account excludeReplies)⟩ := by
  obtain ⟨hps, hp⟩ := servesPages_append lib Do hserve
  have hall : st.allStatuses ++ (ps ++ [p]).flatten = st.allStatuses ++ ps.flatten ++ p := by
    simp
  rw [hall] at hlim ⊢
  have hlim2 : limit ≤ 0 ∨ ((st.allStatuses ++ ps.flatten).length : Int) < limit := by
    rcases hlim with h | h
    · exact Or.inl h
    · right
      simp only [List.length_append, Nat.cast_add] at h ⊢
      omega
  rw [pullLoop_run lib Do c account excludeReplies limit ps st hps
    (fun q hq => hne q (by simp [hq])) hlim2 (by omega)]
  have hreply : decodedPage lib (pageReply lib Do c account excludeReplies
      (advance lib c account excludeReplies st ps)) = some p := by
    have := hp (pageRequest lib c account excludeReplies
      (advance lib c account excludeReplies st ps).maxID)
    simpa [pageReply, advance_log_length, Nat.add_assoc, Nat.add_comm 1 ps.length,
      Nat.add_left_comm] using this
  have hpne : ¬ p.length = 0 := fun h => hne p (by simp) (List.length_eq_zero.mp h)
  have hl : ¬ (limit > 0 ∧ ((st.allStatuses ++ ps.flatten ++ p).length : Int) ≥ limit) := by
    rintro ⟨h1, h2⟩
    rcases hlim with h | h <;> omega
  rw [pullLoop_served lib Do c account excludeReplies limit _ p hreply, if_neg hpne,
    advance_allStatuses, logAfter_advance, if_neg hl, advance_pageCounter,
    if_pos (by omega)]

/-- The loop issues at most `51 - pageCounter` page requests, and at most one when the page
counter is 50 or more. -/
theorem pullLoop_log_length_le (st : LoopState) :
    (pullLoop lib Do c account excludeReplies limit st).log.length
      ≤ st.log.length + max 1 (51 - st.pageCounter) := by
  refine pullLoop_induct lib Do c account excludeReplies limit
    (fun st r => r.log.length ≤ st.log.length + max 1 (51 - st.pageCounter))
    ?_ ?_ ?_ ?_ ?_ st
  · intro st _
    simp only [logAfter, List.length_append, List.length_cons, List.length_nil]
    omega
  · intro st _
    simp only [logAfter, List.length_append, List.length_cons, List.length_nil]
    omega
  · intro st page _ _ _ _
    simp only [logAfter, List.length_append, List.length_cons, List.length_nil]
    omega
  · intro st page _ _ _ _
    simp only [logAfter, List.length_append, List.length_cons, List.length_nil]
    omega
  · intro st page _ _ _ hle ih
    simp only [nextState, logAfter, List.length_append, List.length_cons,
      List.length_nil] at ih ⊢
    omega

/-- The log of the result starts with the requests issued before and the request of the
current iteration; and when the reply to a later request fails, that request is the last
one, no posts are returned and the error is the error of that reply. -/
theorem pullLoop_first_failure (st : LoopState) :
    (∃ rest, (pullLoop lib Do c account excludeReplies limit st).log
        = logAfter lib c account excludeReplies st ++ rest)
    ∧ ∀ (n : Nat) (call : PageCall), st.log.length < n →
        (pullLoop lib Do c account excludeReplies limit st).log.get? (n - 1) = some call →
        decodedPage lib (Do n call.request) = none →
        (pullLoop lib Do c account excludeReplies limit st).statuses = []
        ∧ (pullLoop lib Do c account excludeReplies limit st).err
            = pageError lib (Do n call.request)
        ∧ (pullLoop lib Do c account excludeReplies limit st).log.length = n := by
  have hterm : ∀ (st : LoopState) (n : Nat) (call : PageCall), st.log.length < n →
      (logAfter lib c account excludeReplies st).get? (n - 1) = some call →
      n = st.log.length + 1
        ∧ Do n call.request = pageReply lib Do c account excludeReplies st := by
    intro st n call hn hcall
    have hlt : n - 1 < (logAfter lib c account excludeReplies st).length := by
      rw [List.get?_eq_some] at hcall
      exact hcall.1
    simp only [logAfter, List.length_append, List.length_cons, List.length_nil] at hlt
    have hn1 : n = st.log.length + 1 := by omega
    subst hn1
    refine ⟨rfl, ?_⟩
    simp only [logAfter, Nat.add_sub_cancel, List.get?_eq_getElem?] at hcall
    rw [List.getElem?_append_right (Nat.le_refl _)] at hcall
    simp only [Nat.sub_self, List.getElem?_cons_zero, Option.some.injEq] at hcall
    rw [← hcall]
    rfl
  refine pullLoop_induct lib Do c account excludeReplies limit
    (fun st r => (∃ rest, r.log = logAfter lib c account excludeReplies st ++ rest)
      ∧ ∀ (n : Nat) (call : PageCall), st.log.length < n →
        r.log.get? (n - 1) = some call →
        decodedPage lib (Do n call.request) = none →
        r.statuses = [] ∧ r.err = pageError lib (Do n call.request) ∧ r.log.length = n)
    ?_ ?_ ?_ ?_ ?_ st
  · intro st _
    refine ⟨⟨[], by simp⟩, ?_⟩
    intro n call hn hcall _
    obtain ⟨hn1, hreq⟩ := hterm st n call hn hcall
    refine ⟨rfl, by rw [hreq], ?_⟩
    simp only [logAfter, List.length_append, List.length_cons, List.length_nil]
    omega
  · intro st hr
    refine ⟨⟨[], by simp⟩, ?_⟩
    intro n call hn hcall hfail
    obtain ⟨_, hreq⟩ := hterm st n call hn hcall
    rw [hreq, hr] at hfail
    exact absurd hfail (by simp)
  · intro st page hr _ _ _
    refine ⟨⟨[], by simp⟩, ?_⟩
    intro n call hn hcall hfail
    obtain ⟨_, hreq⟩ := hterm st n call hn hcall
    rw [hreq, hr] at hfail
    exact absurd hfail (by simp)
  · intro st page hr _ _ _
    refine ⟨⟨[], by simp⟩, ?_⟩
    intro n call hn hcall hfail
    obtain ⟨_, hreq⟩ := hterm st n call hn hcall
    rw [hreq, hr] at hfail
    exact absurd hfail (by simp)
  · intro st page hr _ _ _ ih
    obtain ⟨⟨rest, hrest⟩, ih2⟩ := ih
    have hlog : (pullLoop lib Do c account excludeReplies limit
        (nextState lib c account excludeReplies st page)).log
          = logAfter lib c account excludeReplies st
            ++ (pageCall lib c account excludeReplies (lastID page) :: rest) := by
      rw [hrest]
      simp [logAfter, nextState]
    refine ⟨⟨_, hlog⟩, ?_⟩
    intro n call hn hcall hfail
    by_cases hn1 : n = st.log.length + 1
    · exfalso
      have hcall2 : (logAfter lib c account excludeReplies st).get? (n - 1) = some call := by
        rw [hlog] at hcall
        simp only [List.get?_eq_getElem?] at hcall ⊢
        rw [List.getElem?_append_left (by simp [logAfter]; omega)] at hcall
        exact hcall
      obtain ⟨_, hreq⟩ := hterm st n call hn hcall2
      rw [hreq, hr] at hfail
      exact absurd hfail (by simp)
    · apply ih2 n call _ hcall hfail
      simp only [nextState, logAfter, List.length_append, List.length_cons, List.length_nil]
      omega

/-! ### Runs over pages that are served on the requests issued -/

/-- The URL of a page request: the statuses path of the account, a question mark and the
encoding of the parameters of the request. -/
theorem pageRequest_URL (maxID : GoString) :
    (pageRequest lib c account excludeReplies maxID).URL
      = apiBaseURL ++ str "/v1/accounts/" ++ account.ID ++ str "/statuses" ++ str "?"
          ++ lib.encode (pageParams excludeReplies maxID) := by
  have hpos : (pageParams excludeReplies maxID).length > 0 := by
    simp [pageParams, Values.Set]
  simp only [pageRequest, getRequest, if_pos hpos]

/-- An upstream that serves the pages by the number of the call, whatever the request,
serves them on the requests that the loop issues. -/
theorem servesOnCursors_of_servesPages (ps : List (List Status)) (n : Nat)
    (maxID : GoString)
    (hserve : ServesPages lib Do n ps)
    (hend : ServesPage lib Do (n + ps.length) []) :
    ServesOnCursors lib Do c account excludeReplies n maxID (ps ++ [[]]) := by
  induction ps generalizing n maxID with
  | nil =>
    refine ⟨?_, trivial⟩
    simpa using hend _
  | cons p ps ih =>
    obtain ⟨h0, hrest⟩ := servesPages_cons lib Do hserve
    refine ⟨h0 _, ?_⟩
    apply ih (n + 1) (lastID p) hrest
    simpa [Nat.add_assoc, Nat.add_comm 1 ps.length] using hend

/-- Non-empty pages and then an empty page, served on the requests that the loop issues:
the loop returns the pages in the order served, and the cursors of its requests are the
cursor of the start and then the last id of each page. -/
theorem pullLoop_exhaust_on (ps : List (List Status)) (st : LoopState)
    (hserve : ServesOnCursors lib Do c account excludeReplies (st.log.length + 1) st.maxID
      (ps ++ [[]]))
    (hne : ∀ p ∈ ps, p ≠ [])
    (hlim : limit ≤ 0 ∨ ((st.allStatuses ++ ps.flatten).length : Int) < limit)
    (hpc : st.pageCounter + ps.length ≤ 50) :
    pullLoop lib Do c account excludeReplies limit st
      = ⟨st.allStatuses ++ ps.flatten, none,
          st.log ++ (st.maxID :: ps.map lastID).map
            (pageCall lib c account excludeReplies)⟩ := by
  induction ps generalizing st with
  | nil =>
    have h0 : decodedPage lib (pageReply lib Do c account excludeReplies st) = some [] :=
      hserve.1
    rw [pullLoop_served lib Do c account excludeReplies limit st [] h0,
      if_pos List.length_nil]
    simp [logAfter]
  | cons p ps ih =>
    have h0 : decodedPage lib (pageReply lib Do c account excludeReplies st) = some p :=
      hserve.1
    have hrest := hserve.2
    have hp : p ≠ [] := hne p (by simp)
    have hlen : ¬ p.length = 0 := fun h => hp (List.length_eq_zero.mp h)
    simp only [List.length_cons] at hpc
    have hl : ¬ (limit > 0 ∧ ((st.allStatuses ++ p).length : Int) ≥ limit) := by
      rintro ⟨h1, h2⟩
      rcases hlim with h | h
      · omega
      · simp only [List.flatten_cons, List.length_append, Nat.cast_add] at h h2
        omega
    rw [pullLoop_served lib Do c account excludeReplies limit st p h0,
      if_neg hlen, if_neg hl, if_neg (by omega)]
    rw [ih (nextState lib c account excludeReplies st p)
      (by simpa [nextState, logAfter] using hrest)
      (fun q hq => hne q (by simp [hq]))
      (by simpa [nextState, List.append_assoc] using hlim)
      (by simp only [nextState]; omega)]
    simp [nextState, logAfter]

end Loop

/-! ## PullStatuses over pages that are served -/

section Pull

variable (lib : Lib) (Do : Nat → Request → DoResult) (c : Client) (username : GoString)
  (excludeReplies : Bool) (limit : Int) (account : Account)

/-- Non-empty pages (at most 50) and then an empty page, the limit not being reached:
`PullStatuses` returns the pages in the order served, after one request per page and one
more, the cursor of each request being the last id of the page before it. -/
theorem PullStatuses_exhaust (ps : List (List Status))
    (hlookup : Lookup lib (Do 0) c username = .ok account)
    (hk : ps.length ≤ 50)
    (hne : ∀ p ∈ ps, p ≠ [])
    (hlim : limit ≤ 0 ∨ (ps.flatten.length : Int) < limit)
    (hserve : ServesPages lib Do 1 ps)
    (hend : ServesPage lib Do (ps.length + 1) []) :
    PullStatuses lib Do c username excludeReplies limit
      = ⟨ps.flatten, none,
          ([] :: ps.map lastID).map (pageCall lib c account excludeReplies)⟩ := by
  unfold PullStatuses
  rw [hlookup]
  simp only
  rw [pullLoop_exhaust lib Do c account excludeReplies limit ps _
    (by simpa using hserve) hne (by simpa using hlim) (by simpa using hk)
    (by simpa [Nat.add_comm] using hend)]
  simp

/-- The `max_id` parameters of the page requests whose cursors are given. -/
theorem max_id_of_cursors (cursors : List GoString) :
    (cursors.map (pageCall lib c account excludeReplies)).map
        (fun call => Values.Lookup call.params (str "max_id"))
      = cursors.map (fun m => if m = [] then none else some m) := by
  rw [List.map_map]
  apply List.map_congr_left
  intro m _
  simp only [Function.comp, pageCall]
  exact pageParams_max_id excludeReplies m

/-- Non-empty pages (at most 50) and then an empty page, served on the requests that
`PullStatuses` issues, the limit not being reached: the pages are returned in the order
served and the cursors of the requests are none and then the last id of each page. -/
theorem PullStatuses_exhaust_on (ps : List (List Status))
    (hlookup : Lookup lib (Do 0) c username = .ok account)
    (hk : ps.length ≤ 50)
    (hne : ∀ p ∈ ps, p ≠ [])
    (hlim : limit ≤ 0 ∨ (ps.flatten.length : Int) < limit)
    (hserve : ServesOnCursors lib Do c account excludeReplies 1 [] (ps ++ [[]])) :
    PullStatuses lib Do c username excludeReplies limit
      = ⟨ps.flatten, none,
          ([] :: ps.map lastID).map (pageCall lib c account excludeReplies)⟩ := by
  unfold PullStatuses
  rw [hlookup]
  simp only
  rw [pullLoop_exhaust_on lib Do c account excludeReplies limit ps _
    (by simpa using hserve) hne (by simpa using hlim) (by simpa using hk)]
  simp

end Pull

/-! ## C1: the limit bounds the result -/

section C1

/-- C1. For every positive limit and every upstream, whenever `PullStatuses` returns without
error the returned post list has length at most the limit. -/
theorem PullStatuses_length_le_limit (lib : Lib) (Do : Nat → Request → DoResult)
    (c : Client) (username : GoString) (excludeReplies : Bool) (limit : Int)
    (hpos : 0 < limit)
    (herr : (PullStatuses lib Do c username excludeReplies limit).err = none) :
    ((PullStatuses lib Do c username excludeReplies limit).statuses.length : Int) ≤ limit := by
  unfold PullStatuses at herr ⊢
  cases hl : Lookup lib (Do 0) c username with
  | error e =>
    rw [hl] at herr
    simp at herr
  | ok account =>
    simp only
    exact pullLoop_length_le lib Do c account excludeReplies limit hpos _
      (by simpa using hpos)

/-- Witness of C1: a page of three posts against the limit 2 gives two posts. -/
theorem PullStatuses_length_le_limit_witness :
    (PullStatuses exampleLib (serve [str "7", [1, 2, 3]]) exampleClient (str "@a")
        false 2).err = none
    ∧ ((PullStatuses exampleLib (serve [str "7", [1, 2, 3]]) exampleClient (str "@a")
        false 2).statuses.length : Int) ≤ 2 :=
  ⟨by simp [PullStatuses, Lookup, serve, exampleLib, pullLoop],
   PullStatuses_length_le_limit exampleLib (serve [str "7", [1, 2, 3]]) exampleClient
    (str "@a") false 2 (by decide)
    (by simp [PullStatuses, Lookup, serve, exampleLib, pullLoop])⟩

end C1

/-! ## C2: the pages are returned in the order served -/

section C2

/-- C2. When the upstream answers the page requests with `k ≤ 50` non-empty pages and then
an empty page, all with status 200, `PullStatuses` with limit 0 returns without error
exactly the concatenation of the pages in the order served. -/
theorem PullStatuses_returns_pages_in_order (lib : Lib) (Do : Nat → Request → DoResult)
    (c : Client) (username : GoString) (excludeReplies : Bool) (account : Account)
    (ps : List (List Status))
    (hlookup : Lookup lib (Do 0) c username = .ok account)
    (hk : ps.length ≤ 50)
    (hne : ∀ p ∈ ps, p ≠ [])
    (hserve : ServesPages lib Do 1 ps)
    (hend : ServesPage lib Do (ps.length + 1) []) :
    (PullStatuses lib Do c username excludeReplies 0).statuses = ps.flatten
    ∧ (PullStatuses lib Do c username excludeReplies 0).err = none := by
  rw [PullStatuses_exhaust lib Do c username excludeReplies 0 account ps hlookup hk hne
    (Or.inl (le_refl 0)) hserve hend]
  exact ⟨rfl, rfl⟩

/-- Witness of C2: pages of two posts and one post, then an empty page. -/
theorem PullStatuses_returns_pages_in_order_witness :
    (PullStatuses exampleLib (serve [str "7", [1, 2], [3]]) exampleClient (str "@a")
        false 0).statuses
      = [postWithID [1], postWithID [2], postWithID [3]]
    ∧ (PullStatuses exampleLib (serve [str "7", [1, 2], [3]]) exampleClient (str "@a")
        false 0).err = none :=
  PullStatuses_returns_pages_in_order exampleLib (serve [str "7", [1, 2], [3]])
    exampleClient (str "@a") false
    { ID := str "7", Username := [], DisplayName := [], FollowersCount := 0,
      StatusesCount := 0, Verified := false }
    [[postWithID [1], postWithID [2]], [postWithID [3]]]
    rfl (by decide) (by decide)
    (fun i hi req => match i, hi with
      | 0, _ => rfl
      | 1, _ => rfl)
    (fun _ => rfl)

end C2

/-! ## C3: the cursor of each page request -/

section C3

/-- C3, as amended. When the upstream answers the page requests that `PullStatuses` issues
with `k ≤ 50` non-empty pages and then an empty page and the limit is 0, `PullStatuses`
issues exactly `k + 1` page requests; the URL of each request handed to the transport is
the statuses path of the account followed by the encoding of its parameters; the first
request carries no `max_id`, and every later one carries `max_id` equal to the id of the
last post of the page fetched just before it when that id is not empty, and no `max_id`
when that id is empty. Only the replies to the requests built from these cursors are
assumed, so an upstream that answers by cursor is covered as well as one that answers by
the number of the call. -/
theorem PullStatuses_cursors (lib : Lib) (Do : Nat → Request → DoResult)
    (c : Client) (username : GoString) (excludeReplies : Bool) (account : Account)
    (ps : List (List Status))
    (hlookup : Lookup lib (Do 0) c username = .ok account)
    (hk : ps.length ≤ 50)
    (hne : ∀ p ∈ ps, p ≠ [])
    (hserve : ServesOnCursors lib Do c account excludeReplies 1 [] (ps ++ [[]])) :
    (PullStatuses lib Do c username excludeReplies 0).log.length = ps.length + 1
    ∧ (PullStatuses lib Do c username excludeReplies 0).log
        = ([] :: ps.map lastID).map (pageCall lib c account excludeReplies)
    ∧ (∀ call ∈ (PullStatuses lib Do c username excludeReplies 0).log,
        call.request.URL
          = apiBaseURL ++ str "/v1/accounts/" ++ account.ID ++ str "/statuses" ++ str "?"
              ++ lib.encode call.params)
    ∧ (PullStatuses lib Do c username excludeReplies 0).log.map
          (fun call => Values.Lookup call.params (str "max_id"))
        = none :: ps.map (fun p => if lastID p = [] then none else some (lastID p))
    ∧ (PullStatuses lib Do c username excludeReplies 0).statuses = ps.flatten
    ∧ (PullStatuses lib Do c username excludeReplies 0).err = none := by
  rw [PullStatuses_exhaust_on lib Do c username excludeReplies 0 account ps hlookup hk hne
    (Or.inl (le_refl 0)) hserve]
  refine ⟨by simp, rfl, ?_, ?_, rfl, rfl⟩
  · intro call hcall
    simp only [List.mem_map] at hcall
    obtain ⟨m, _, hm⟩ := hcall
    rw [← hm]
    exact pageRequest_URL lib c account excludeReplies m
  · simp only
    rw [max_id_of_cursors]
    simp [List.map_map, Function.comp]

/-- Witness of C3 as amended: an upstream that answers by the URL of the request. It gives
the account `7` for the lookup of `a`, the posts `1` and `2` for the statuses of `7`
without cursor, the post `3` for the cursor `2`, an empty page for the cursor `3`, and
fails on every other request. `PullStatuses` issues exactly these three page requests and
returns the three posts. -/
theorem PullStatuses_cursors_witness :
    (PullStatuses queryLib
        (fun _ => serveURL
          [ (str "https://truthsocial.com/api/v1/accounts/lookup?acct=a", str "7"),
            (str "https://truthsocial.com/api/v1/accounts/7/statuses?limit=40", str "12"),
            (str "https://truthsocial.com/api/v1/accounts/7/statuses?limit=40&max_id=2",
              str "3"),
            (str "https://truthsocial.com/api/v1/accounts/7/statuses?limit=40&max_id=3",
              []) ])
        exampleClient (str "@a") false 0).log.map (fun call => call.request.URL)
      = [ str "https://truthsocial.com/api/v1/accounts/7/statuses?limit=40",
          str "https://truthsocial.com/api/v1/accounts/7/statuses?limit=40&max_id=2",
          str "https://truthsocial.com/api/v1/accounts/7/statuses?limit=40&max_id=3" ]
    ∧ (PullStatuses queryLib
        (fun _ => serveURL
          [ (str "https://truthsocial.com/api/v1/accounts/lookup?acct=a", str "7"),
            (str "https://truthsocial.com/api/v1/accounts/7/statuses?limit=40", str "12"),
            (str "https://truthsocial.com/api/v1/accounts/7/statuses?limit=40&max_id=2",
              str "3"),
            (str "https://truthsocial.com/api/v1/accounts/7/statuses?limit=40&max_id=3",
              []) ])
        exampleClient (str "@a") false 0).log.map
          (fun call => Values.Lookup call.params (str "max_id"))
      = [none, some (str "2"), some (str "3")]
    ∧ (PullStatuses queryLib
        (fun _ => serveURL
          [ (str "https://truthsocial.com/api/v1/accounts/lookup?acct=a", str "7"),
            (str "https://truthsocial.com/api/v1/accounts/7/statuses?limit=40", str "12"),
            (str "https://truthsocial.com/api/v1/accounts/7/statuses?limit=40&max_id=2",
              str "3"),
            (str "https://truthsocial.com/api/v1/accounts/7/statuses?limit=40&max_id=3",
              []) ])
        exampleClient (str "@a") false 0).statuses
      = [postWithID (str "1"), postWithID (str "2"), postWithID (str "3")] := by
  have h := PullStatuses_cursors queryLib
    (fun _ => serveURL
      [ (str "https://truthsocial.com/api/v1/accounts/lookup?acct=a", str "7"),
        (str "https://truthsocial.com/api/v1/accounts/7/statuses?limit=40", str "12"),
        (str "https://truthsocial.com/api/v1/accounts/7/statuses?limit=40&max_id=2",
          str "3"),
        (str "https://truthsocial.com/api/v1/accounts/7/statuses?limit=40&max_id=3",
          []) ])
    exampleClient (str "@a") false
    { ID := str "7", Username := [], DisplayName := [], FollowersCount := 0,
      StatusesCount := 0, Verified := false }
    [[postWithID (str "1"), postWithID (str "2")], [postWithID (str "3")]]
    rfl (by decide) (by decide)
    ⟨by decide, by decide, by decide, trivial⟩
  refine ⟨?_, h.2.2.2.1.trans (by decide), h.2.2.2.2.1.trans (by decide)⟩
  rw [h.2.1]
  decide

/-- C3 as stated fails: the upstream serves one page whose only post has the empty id, then
an empty page, whatever the requests. The second request handed to the transport has the
same URL as the first, with no `max_id` at all, where the claim asks for `max_id` equal to
the id of that post. -/
theorem PullStatuses_cursor_counterexample :
    Lookup queryLib (serve [str "7", [0]] 0) exampleClient (str "@a")
      = .ok { ID := str "7", Username := [], DisplayName := [], FollowersCount := 0,
              StatusesCount := 0, Verified := false }
    ∧ ServesPages queryLib (serve [str "7", [0]]) 1 [[postWithID []]]
    ∧ ServesPage queryLib (serve [str "7", [0]]) 2 []
    ∧ (PullStatuses queryLib (serve [str "7", [0]]) exampleClient (str "@a")
        false 0).log.map (fun call => call.request.URL)
      = [ str "https://truthsocial.com/api/v1/accounts/7/statuses?limit=40",
          str "https://truthsocial.com/api/v1/accounts/7/statuses?limit=40" ]
    ∧ (PullStatuses queryLib (serve [str "7", [0]]) exampleClient (str "@a")
        false 0).log.map (fun call => Values.Lookup call.params (str "max_id"))
      = [none, none]
    ∧ [none, none] ≠ none :: [[postWithID []]].map (fun p => some (lastID p)) := by
  have hserve : ServesPages queryLib (serve [str "7", [0]]) 1 [[postWithID []]] :=
    fun i hi req => match i, hi with
      | 0, _ => rfl
  have hrun := PullStatuses_exhaust queryLib (serve [str "7", [0]]) exampleClient (str "@a")
    false 0
    { ID := str "7", Username := [], DisplayName := [], FollowersCount := 0,
      StatusesCount := 0, Verified := false }
    [[postWithID []]] rfl (by decide) (by decide) (Or.inl (le_refl 0)) hserve
    (fun _ => rfl)
  refine ⟨rfl, hserve, fun _ => rfl, ?_, ?_, by decide⟩
  · rw [hrun]
    decide
  · rw [hrun]
    simp only
    rw [max_id_of_cursors]
    decide

end C3

/-! ## C4: the limit truncates and stops the loop -/

section C4

/-- C4. Let the upstream serve non-empty pages, `ps` being the first `j - 1` of them and `p`
the `j`-th (`j ≤ 51`), such that the accumulated count is below the (positive) limit after
the pages `ps` and reaches or exceeds it with `p`. Then `PullStatuses` returns exactly the
first `limit` posts of the concatenation of the pages `1..j`, without error, and issues
exactly `j` page requests. -/
theorem PullStatuses_limit_truncation (lib : Lib) (Do : Nat → Request → DoResult)
    (c : Client) (username : GoString) (excludeReplies : Bool) (limit : Int)
    (account : Account) (ps : List (List Status)) (p : List Status)
    (hlookup : Lookup lib (Do 0) c username = .ok account)
    (hj : ps.length + 1 ≤ 51)
    (hne : ∀ q ∈ ps ++ [p], q ≠ [])
    (hserve : ServesPages lib Do 1 (ps ++ [p]))
    (hbelow : (ps.flatten.length : Int) < limit)
    (hreach : limit ≤ ((ps ++ [p]).flatten.length : Int)) :
    (PullStatuses lib Do c username excludeReplies limit).statuses
      = (ps ++ [p]).flatten.take limit.toNat
    ∧ (PullStatuses lib Do c username excludeReplies limit).err = none
    ∧ (PullStatuses lib Do c username excludeReplies limit).log.length = ps.length + 1 := by
  unfold PullStatuses
  rw [hlookup]
  simp only
  rw [pullLoop_reach_limit lib Do c account excludeReplies limit ps p _
    (by simpa using hserve) hne (by simpa using hbelow) (by simpa using hreach)
    (by simp only; omega)]
  refine ⟨by simp, rfl, by simp⟩

/-- Witness of C4: pages of two posts and two posts against the limit 3 give the first three
posts after two requests. -/
theorem PullStatuses_limit_truncation_witness :
    (PullStatuses exampleLib (serve [str "7", [1, 2], [3, 4], [5]]) exampleClient (str "@a")
        false 3).statuses
      = [postWithID [1], postWithID [2], postWithID [3]]
    ∧ (PullStatuses exampleLib (serve [str "7", [1, 2], [3, 4], [5]]) exampleClient
        (str "@a") false 3).err = none
    ∧ (PullStatuses exampleLib (serve [str "7", [1, 2], [3, 4], [5]]) exampleClient
        (str "@a") false 3).log.length = 2 :=
  PullStatuses_limit_truncation exampleLib (serve [str "7", [1, 2], [3, 4], [5]])
    exampleClient (str "@a") false 3
    { ID := str "7", Username := [], DisplayName := [], FollowersCount := 0,
      StatusesCount := 0, Verified := false }
    [[postWithID [1], postWithID [2]]] [postWithID [3], postWithID [4]]
    rfl (by decide) (by decide)
    (fun i hi req => match i, hi with
      | 0, _ => rfl
      | 1, _ => rfl)
    (by decide) (by decide)

end C4

/-! ## C5: the safety bound -/

section C5

/-- C5. For every limit and every upstream, `PullStatuses` issues at most 51 page requests;
and when the first 51 page replies are non-empty pages with status 200 and the limit is
not positive or is not reached by their posts, it issues exactly 51 page requests and
returns the posts of those 51 pages without error. -/
theorem PullStatuses_safety_bound (lib : Lib) (Do : Nat → Request → DoResult)
    (c : Client) (username : GoString) (excludeReplies : Bool) (limit : Int) :
    (PullStatuses lib Do c username excludeReplies limit).log.length ≤ 51
    ∧ ∀ (account : Account) (ps : List (List Status)),
        Lookup lib (Do 0) c username = .ok account →
        ps.length = 51 →
        (∀ q ∈ ps, q ≠ []) →
        ServesPages lib Do 1 ps →
        (limit ≤ 0 ∨ (ps.flatten.length : Int) < limit) →
        (PullStatuses lib Do c username excludeReplies limit).log.length = 51
        ∧ (PullStatuses lib Do c username excludeReplies limit).statuses = ps.flatten
        ∧ (PullStatuses lib Do c username excludeReplies limit).err = none := by
  constructor
  · unfold PullStatuses
    cases hl : Lookup lib (Do 0) c username with
    | error e => simp
    | ok account =>
      simp only
      have := pullLoop_log_length_le lib Do c account excludeReplies limit
        { allStatuses := [], maxID := [], pageCounter := 0, log := [] }
      simpa using this
  · intro account ps hlookup hlen hne hserve hlim
    have hnil : ps ≠ [] := by
      intro h
      rw [h] at hlen
      simp at hlen
    have hsplit : ps.dropLast ++ [ps.getLast hnil] = ps := List.dropLast_append_getLast hnil
    have hdl : ps.dropLast.length = 50 := by
      rw [List.length_dropLast, hlen]
    unfold PullStatuses
    rw [hlookup]
    simp only
    rw [pullLoop_safety_stop lib Do c account excludeReplies limit ps.dropLast
      (ps.getLast hnil) _
      (by rw [hsplit]; simpa using hserve) (by rw [hsplit]; exact hne)
      (by rw [hsplit]; simpa using hlim) (by simp only; omega)]
    rw [hsplit]
    refine ⟨?_, by simp, rfl⟩
    simp only [List.nil_append, List.map_cons, List.length_cons, List.length_map, hdl]

/-- Witness of C5: an upstream whose every page is the same one-post page, with limit 0:
51 requests, 51 posts, no error. -/
theorem PullStatuses_safety_bound_witness :
    (PullStatuses exampleLib (serveForever (str "7") [1]) exampleClient (str "@a")
        false 0).log.length = 51
    ∧ (PullStatuses exampleLib (serveForever (str "7") [1]) exampleClient (str "@a")
        false 0).statuses = (List.replicate 51 [postWithID [1]]).flatten
    ∧ (PullStatuses exampleLib (serveForever (str "7") [1]) exampleClient (str "@a")
        false 0).err = none :=
  (PullStatuses_safety_bound exampleLib (serveForever (str "7") [1]) exampleClient
    (str "@a") false 0).2
    { ID := str "7", Username := [], DisplayName := [], FollowersCount := 0,
      StatusesCount := 0, Verified := false }
    (List.replicate 51 [postWithID [1]])
    rfl (by simp)
    (by intro q hq; rw [List.eq_of_mem_replicate hq]; simp)
    (by
      intro i hi req
      have h0 : 1 + i ≠ 0 := by omega
      have hget : (List.replicate 51 [postWithID [1]]).get ⟨i, hi⟩ = [postWithID [1]] := by
        rw [List.get_eq_getElem, List.getElem_replicate]
      rw [hget]
      simp [serveForever, decodedPage, exampleLib, h0])
    (Or.inl (le_refl 0))

end C5

/-! ## C6: a failing page request aborts the operation -/

section C6

/-- C6. When the `n`-th page request (`n ≥ 1`) is issued and the reply to it fails (transport
error, status other than 200, or a body that does not decode), `PullStatuses` returns the
error of that reply together with no posts, and the `n`-th request is the last one. -/
theorem PullStatuses_page_failure (lib : Lib) (Do : Nat → Request → DoResult)
    (c : Client) (username : GoString) (excludeReplies : Bool) (limit : Int)
    (n : Nat) (call : PageCall)
    (hn : 1 ≤ n)
    (hcall : (PullStatuses lib Do c username excludeReplies limit).log.get? (n - 1)
      = some call)
    (hfail : decodedPage lib (Do n call.request) = none) :
    (PullStatuses lib Do c username excludeReplies limit).statuses = []
    ∧ (PullStatuses lib Do c username excludeReplies limit).err
        = pageError lib (Do n call.request)
    ∧ (pageError lib (Do n call.request)).isSome = true
    ∧ (PullStatuses lib Do c username excludeReplies limit).log.length = n := by
  have hsome := pageError_isSome_of_decodedPage_none lib hfail
  unfold PullStatuses at hcall ⊢
  cases hl : Lookup lib (Do 0) c username with
  | error e =>
    rw [hl] at hcall
    simp at hcall
  | ok account =>
    rw [hl] at hcall
    simp only at hcall ⊢
    obtain ⟨h1, h2, h3⟩ := (pullLoop_first_failure lib Do c account excludeReplies limit
      { allStatuses := [], maxID := [], pageCounter := 0, log := [] }).2 n call
      (by simpa using hn) hcall hfail
    exact ⟨h1, h2, hsome, h3⟩


/-- Witness of C6: the first page is served, the reply to the second request has status
500. -/
theorem PullStatuses_page_failure_witness :
    (PullStatuses exampleLib (serveThen [str "7", [1, 2]] (.ok ⟨500, str "oops"⟩))
        exampleClient (str "@a") false 0).statuses = []
    ∧ (PullStatuses exampleLib (serveThen [str "7", [1, 2]] (.ok ⟨500, str "oops"⟩))
        exampleClient (str "@a") false 0).err
        = some (str "statuses request failed: status 500 - oops")
    ∧ (PullStatuses exampleLib (serveThen [str "7", [1, 2]] (.ok ⟨500, str "oops"⟩))
        exampleClient (str "@a") false 0).log.length = 2 := by
  have hcall : (PullStatuses exampleLib (serveThen [str "7", [1, 2]] (.ok ⟨500, str "oops"⟩))
      exampleClient (str "@a") false 0).log.get? (2 - 1)
      = some (pageCall exampleLib exampleClient
          { ID := str "7", Username := [], DisplayName := [], FollowersCount := 0,
            StatusesCount := 0, Verified := false } false [2]) := by
    unfold PullStatuses
    rw [show Lookup exampleLib (serveThen [str "7", [1, 2]] (.ok ⟨500, str "oops"⟩) 0)
        exampleClient (str "@a")
      = .ok { ID := str "7", Username := [], DisplayName := [], FollowersCount := 0,
              StatusesCount := 0, Verified := false } from rfl]
    simp only
    rw [pullLoop_served _ _ _ _ _ _ _ [postWithID [1], postWithID [2]] (by rfl),
      if_neg (by decide), if_neg (by decide), if_neg (by decide),
      pullLoop_fail _ _ _ _ _ _ _ (by rfl)]
    rfl
  have h := PullStatuses_page_failure exampleLib
    (serveThen [str "7", [1, 2]] (.ok ⟨500, str "oops"⟩)) exampleClient (str "@a") false 0
    2 _ (by decide) hcall rfl
  exact ⟨h.1, h.2.1.trans (by decide), h.2.2.2⟩

end C6

/-! ## C7: the token of the session -/

section C7

/-- C7. Let the token endpoint answer the password-grant exchange with status 200 and a body
that decodes to `authResp`. When the `access_token` of `authResp` is not empty,
`authenticate` succeeds, the stored token is that value, and `NewClient` returns the client
that holds it. When it is empty (an absent field decodes to the empty string),
`authenticate` fails with an error and leaves the token unset, and `NewClient` returns no
client. -/
theorem authenticate_token (lib : Lib) (Do : Request → DoResult) (user pass : GoString)
    (payloadBytes body : GoString) (authResp : AuthResponse)
    (hmarshal : lib.jsonMarshal (authPayload { accessToken := [], user := user, pass := pass })
      = .ok payloadBytes)
    (hreply : Do (authRequest payloadBytes) = .ok ⟨200, body⟩)
    (hdecode : lib.unmarshalAuth body = .ok authResp) :
    (authResp.AccessToken ≠ [] →
      (authenticate lib Do { accessToken := [], user := user, pass := pass }).2 = none
      ∧ (authenticate lib Do { accessToken := [], user := user, pass := pass }).1.accessToken
          = authResp.AccessToken
      ∧ NewClient lib Do user pass
          = .ok { accessToken := authResp.AccessToken, user := user, pass := pass })
    ∧ (authResp.AccessToken = [] →
      (authenticate lib Do { accessToken := [], user := user, pass := pass }).2
          = some (str "no access token received")
      ∧ (authenticate lib Do { accessToken := [], user := user, pass := pass }).1.accessToken
          = []
      ∧ NewClient lib Do user pass
          = .error (str "authentication failed: " ++ str "no access token received")) := by
  constructor
  · intro ht
    have ha : authenticate lib Do { accessToken := [], user := user, pass := pass }
        = ({ accessToken := authResp.AccessToken, user := user, pass := pass }, none) := by
      simp [authenticate, hmarshal, hreply, hdecode, ht]
    refine ⟨by rw [ha], by rw [ha], ?_⟩
    simp [NewClient, ha]
  · intro ht
    have ha : authenticate lib Do { accessToken := [], user := user, pass := pass }
        = ({ accessToken := [], user := user, pass := pass },
            some (str "no access token received")) := by
      simp [authenticate, hmarshal, hreply, hdecode, ht]
    refine ⟨by rw [ha], by rw [ha], ?_⟩
    simp [NewClient, ha]

/-- Witness of C7: the token endpoint answers with the token `tok`. -/
theorem authenticate_token_witness :
    (authenticate exampleLib (fun _ => .ok ⟨200, str "tok"⟩)
        { accessToken := [], user := str "user", pass := str "pass" }).2 = none
    ∧ (authenticate exampleLib (fun _ => .ok ⟨200, str "tok"⟩)
        { accessToken := [], user := str "user", pass := str "pass" }).1.accessToken
        = str "tok"
    ∧ NewClient exampleLib (fun _ => .ok ⟨200, str "tok"⟩) (str "user") (str "pass")
        = .ok { accessToken := str "tok", user := str "user", pass := str "pass" } :=
  (authenticate_token exampleLib (fun _ => .ok ⟨200, str "tok"⟩) (str "user") (str "pass")
    (str "payload") (str "tok")
    { AccessToken := str "tok", RefreshToken := [], TokenType := [], Scope := [],
      CreatedAt := 0 }
    rfl rfl rfl).1 (by decide)

end C7

/-! ## C8: the handle is normalised by one leading "@" -/

section C8

/-- C8. For every handle `h` that does not begin with "@", `Lookup` of "@" followed by `h`
and `Lookup` of `h` build the same request, the authenticated GET of the URL that ends in
`lookup?acct=h`, hand it to the transport and so give the same result against the same
upstream: the result of either is decided by the reply to that one request (its transport
error is returned, its body is decoded when the status is 200). Only one leading "@" is
removed: for "@@" followed by `h` the request is the GET of `lookup?acct=@h`. -/
theorem Lookup_strips_one_at (lib : Lib) (Do : Request → DoResult) (c : Client)
    (h : GoString) (hh : HasPrefix h (str "@") = false) :
    lookupRequest c (str "@" ++ h) = lookupRequest c h
    ∧ (lookupRequest c h).URL = apiBaseURL ++ str "/v1/accounts/lookup?acct=" ++ h
    ∧ Lookup lib Do c (str "@" ++ h) = Lookup lib Do c h
    ∧ (lookupRequest c (str "@@" ++ h)).URL
        = apiBaseURL ++ str "/v1/accounts/lookup?acct=" ++ (str "@" ++ h)
    ∧ (∀ Do' : Request → DoResult,
        Do' (getRequest c (apiBaseURL ++ str "/v1/accounts/lookup?acct=" ++ h))
          = Do (getRequest c (apiBaseURL ++ str "/v1/accounts/lookup?acct=" ++ h)) →
        Lookup lib Do' c (str "@" ++ h) = Lookup lib Do c h
        ∧ Lookup lib Do' c h = Lookup lib Do c h)
    ∧ (∀ e : GoString,
        Do (getRequest c (apiBaseURL ++ str "/v1/accounts/lookup?acct=" ++ h)) = .error e →
        Lookup lib Do c (str "@" ++ h) = .error (str "account lookup request failed: " ++ e)
        ∧ Lookup lib Do c h = .error (str "account lookup request failed: " ++ e))
    ∧ (∀ body : GoString,
        Do (getRequest c (apiBaseURL ++ str "/v1/accounts/lookup?acct=" ++ h))
          = .ok ⟨200, body⟩ →
        Lookup lib Do c (str "@" ++ h) = lookupDecode lib body
        ∧ Lookup lib Do c h = lookupDecode lib body)
    ∧ (∀ e : GoString,
        Do (getRequest c (apiBaseURL ++ str "/v1/accounts/lookup?acct=" ++ (str "@" ++ h)))
          = .error e →
        Lookup lib Do c (str "@@" ++ h)
          = .error (str "account lookup request failed: " ++ e))
    ∧ (∀ body : GoString,
        Do (getRequest c (apiBaseURL ++ str "/v1/accounts/lookup?acct=" ++ (str "@" ++ h)))
          = .ok ⟨200, body⟩ →
        Lookup lib Do c (str "@@" ++ h) = lookupDecode lib body) := by
  have hat : str "@" = [64] := by decide
  have hat2 : str "@@" = [64, 64] := by decide
  have h1 : TrimPrefix (str "@" ++ h) (str "@") = h := by
    simp [TrimPrefix, HasPrefix, hat]
  have h2 : TrimPrefix h (str "@") = h := by
    simp [TrimPrefix, hh]
  have h3 : TrimPrefix (str "@@" ++ h) (str "@") = str "@" ++ h := by
    simp [TrimPrefix, HasPrefix, hat, hat2]
  have hreq : lookupRequest c (str "@" ++ h) = lookupRequest c h := by
    simp only [lookupRequest, h1, h2]
  have hr1 : lookupRequest c h
      = getRequest c (apiBaseURL ++ str "/v1/accounts/lookup?acct=" ++ h) := by
    simp only [lookupRequest, h2]
  have hr2 : lookupRequest c (str "@@" ++ h)
      = getRequest c (apiBaseURL ++ str "/v1/accounts/lookup?acct=" ++ (str "@" ++ h)) := by
    simp only [lookupRequest, h3]
  refine ⟨hreq, ?_, ?_, ?_, ?_, ?_, ?_, ?_, ?_⟩
  · simp only [lookupRequest, h2, getRequest]
  · simp only [Lookup, hreq]
  · simp only [lookupRequest, h3, getRequest]
  · intro Do' hsame
    constructor
    · simp only [Lookup, hreq, hr1, hsame]
    · simp only [Lookup, hr1, hsame]
  · intro e he
    constructor
    · simp only [Lookup, hreq, hr1, he]
    · simp only [Lookup, hr1, he]
  · intro body hb
    constructor
    · simp only [Lookup, hreq, hr1, hb]
      simp [lookupDecode]
    · simp only [Lookup, hr1, hb]
      simp [lookupDecode]
  · intro e he
    simp only [Lookup, hr2, he]
  · intro body hb
    simp only [Lookup, hr2, hb]
    simp [lookupDecode]

/-- Witness of C8: an upstream that answers only the GET of `lookup?acct=foo`, with the
account `7`. The lookups of `@foo` and of `foo` both give that account; the lookup of
`@@foo` asks for `acct=@foo` and gets the failure of the upstream. -/
theorem Lookup_strips_one_at_witness :
    Lookup exampleLib
        (serveURL [(str "https://truthsocial.com/api/v1/accounts/lookup?acct=foo", str "7")])
        exampleClient (str "@foo")
      = .ok { ID := str "7", Username := [], DisplayName := [], FollowersCount := 0,
              StatusesCount := 0, Verified := false }
    ∧ Lookup exampleLib
        (serveURL [(str "https://truthsocial.com/api/v1/accounts/lookup?acct=foo", str "7")])
        exampleClient (str "foo")
      = .ok { ID := str "7", Username := [], DisplayName := [], FollowersCount := 0,
              StatusesCount := 0, Verified := false }
    ∧ Lookup exampleLib
        (serveURL [(str "https://truthsocial.com/api/v1/accounts/lookup?acct=foo", str "7")])
        exampleClient (str "@@foo")
      = .error (str "account lookup request failed: " ++ str "unexpected request")
    ∧ (lookupRequest exampleClient (str "@@foo")).URL
        = str "https://truthsocial.com/api/v1/accounts/lookup?acct=@foo" := by
  have h := Lookup_strips_one_at exampleLib
    (serveURL [(str "https://truthsocial.com/api/v1/accounts/lookup?acct=foo", str "7")])
    exampleClient (str "foo") (by decide)
  have e1 : str "@" ++ str "foo" = str "@foo" := by decide
  have e2 : str "@@" ++ str "foo" = str "@@foo" := by decide
  rw [e1, e2] at h
  obtain ⟨_, _, _, hurl, _, _, h200, herr, _⟩ := h
  have hok := h200 (str "7") rfl
  exact ⟨hok.1, hok.2, herr (str "unexpected request") rfl, hurl.trans (by decide)⟩

end C8

/-! ## C9: the Cloudflare block -/

section C9

/-- C9, as amended. For every reply to the token exchange whose status is 403 and whose body
contains the marker "Cloudflare", `authenticate` fails with the access-blocked error, whose
message advises a VPN or a different IP address. -/
theorem authenticate_blocked (lib : Lib) (Do : Request → DoResult) (c : Client)
    (payloadBytes body : GoString)
    (hmarshal : lib.jsonMarshal (authPayload c) = .ok payloadBytes)
    (hreply : Do (authRequest payloadBytes) = .ok ⟨403, body⟩)
    (hmarker : Contains body (str "Cloudflare") = true) :
    authenticate lib Do c = (c, some blockedMessage)
    ∧ Contains blockedMessage (str "try using a VPN or different IP address") = true := by
  constructor
  · simp [authenticate, hmarshal, hreply, hmarker]
  · decide

/-- Witness of C9 as amended: a 403 reply with a Cloudflare page. -/
theorem authenticate_blocked_witness :
    authenticate exampleLib (fun _ => .ok ⟨403, str "<title>Cloudflare</title>"⟩)
        exampleClient
      = (exampleClient, some blockedMessage) :=
  (authenticate_blocked exampleLib (fun _ => .ok ⟨403, str "<title>Cloudflare</title>"⟩)
    exampleClient (str "payload") (str "<title>Cloudflare</title>") rfl rfl (by decide)).1

/-- C9 as stated fails: a reply with status 503 whose body contains the marker is not 200
and contains the marker, yet `authenticate` fails with the generic error that carries the
status and the body, not with the access-blocked error. -/
theorem authenticate_blocked_counterexample :
    (503 : Int) ≠ 200
    ∧ Contains (str "<title>Cloudflare</title>") (str "Cloudflare") = true
    ∧ authenticate exampleLib (fun _ => .ok ⟨503, str "<title>Cloudflare</title>"⟩)
        exampleClient
      = (exampleClient,
          some (str "authentication failed: status 503 - <title>Cloudflare</title>"))
    ∧ some (str "authentication failed: status 503 - <title>Cloudflare</title>")
        ≠ some blockedMessage := by
  refine ⟨by decide, by decide, ?_, by decide⟩
  decide

end C9

/-! ## C10: the body excerpt of a remote error -/

section C10

/-- The error of `authenticate` for a reply with a status other than 200 that is not the
Cloudflare block. -/
theorem authenticate_remote_error (lib : Lib) (Do : Request → DoResult) (c : Client)
    (payloadBytes : GoString) (status : Int) (body : GoString)
    (hmarshal : lib.jsonMarshal (authPayload c) = .ok payloadBytes)
    (hreply : Do (authRequest payloadBytes) = .ok ⟨status, body⟩)
    (hstatus : status ≠ 200)
    (hb : (decide (status = 403) && Contains body (str "Cloudflare")) = false) :
    authenticate lib Do c
      = (c, some (str "authentication failed: status " ++ fmtInt status ++ str " - "
          ++ excerpt body)) := by
  simp [authenticate, hmarshal, hreply, hstatus, hb, excerpt]

/-- C10, as amended. For every reply whose status is not 200 and that is not the Cloudflare
block, each of the four call sites fails with an error whose message ends with the excerpt
of the body; the excerpt is the body itself when the body has at most 200 bytes, and the
first 200 bytes of the body followed by "..." otherwise, so its length is at most 203. -/
theorem remote_error_excerpt (lib : Lib) (status : Int) (body : GoString)
    (hstatus : status ≠ 200)
    (hblock : ¬ (status = 403 ∧ Contains body (str "Cloudflare") = true)) :
    (∀ (Do : Request → DoResult) (c : Client) (payloadBytes : GoString),
        lib.jsonMarshal (authPayload c) = .ok payloadBytes →
        Do (authRequest payloadBytes) = .ok ⟨status, body⟩ →
        authenticate lib Do c
          = (c, some (str "authentication failed: status " ++ fmtInt status ++ str " - "
              ++ excerpt body)))
    ∧ (∀ (Do : Request → DoResult) (c : Client) (username : GoString),
        Do (lookupRequest c username) = .ok ⟨status, body⟩ →
        Lookup lib Do c username
          = .error (str "account lookup failed: status " ++ fmtInt status ++ str " - "
              ++ excerpt body))
    ∧ (∀ (Do : Nat → Request → DoResult) (c : Client) (account : Account)
        (excludeReplies : Bool) (limit : Int) (st : LoopState),
        pageReply lib Do c account excludeReplies st = .ok ⟨status, body⟩ →
        pullLoop lib Do c account excludeReplies limit st
          = ⟨[], some (str "statuses request failed: status " ++ fmtInt status ++ str " - "
              ++ excerpt body), logAfter lib c account excludeReplies st⟩)
    ∧ (∀ (Do : Request → DoResult) (c : Client) (accountID : GoString) (limit : Int),
        Do (statusesRequest c accountID limit) = .ok ⟨status, body⟩ →
        GetStatuses lib Do c accountID limit
          = .error (str "statuses request failed: status " ++ fmtInt status ++ str " - "
              ++ excerpt body))
    ∧ (excerpt body).length ≤ 203
    ∧ (body.length ≤ 200 → excerpt body = body)
    ∧ (200 < body.length → excerpt body = body.take 200 ++ str "...") := by
  have hb : (decide (status = 403) && Contains body (str "Cloudflare")) = false := by
    rw [Bool.and_eq_false_iff]
    by_cases h403 : status = 403
    · right
      cases hc : Contains body (str "Cloudflare") with
      | false => rfl
      | true => exact absurd ⟨h403, hc⟩ hblock
    · left
      simp [h403]
  have hdots : (str "...").length = 3 := by decide
  refine ⟨?_, ?_, ?_, ?_, ?_, ?_, ?_⟩
  · intro Do c payloadBytes hm hr
    exact authenticate_remote_error lib Do c payloadBytes status body hm hr hstatus hb
  · intro Do c username hr
    simp [Lookup, hr, hstatus, hb, excerpt]
  · intro Do c account excludeReplies limit st hr
    have hnone : decodedPage lib (pageReply lib Do c account excludeReplies st) = none := by
      simp [hr, decodedPage, hstatus]
    rw [pullLoop_fail lib Do c account excludeReplies limit st hnone, hr]
    simp [pageError, hstatus, hb, excerpt]
  · intro Do c accountID limit hr
    simp [GetStatuses, hr, hstatus, hb, excerpt]
  · unfold excerpt
    split
    · rw [List.length_append, List.length_take, hdots]
      omega
    · omega
  · intro hle
    simp [excerpt, Nat.not_lt.mpr hle]
  · intro hlt
    simp [excerpt, hlt]

/-- Witness of C10 as amended: a reply with status 404 and a short body. -/
theorem remote_error_excerpt_witness :
    Lookup exampleLib (fun _ => .ok ⟨404, str "not found"⟩) exampleClient (str "@a")
      = .error (str "account lookup failed: status " ++ fmtInt 404 ++ str " - "
          ++ excerpt (str "not found"))
    ∧ (excerpt (str "not found")).length ≤ 203 :=
  have h := remote_error_excerpt exampleLib 404 (str "not found") (by decide) (by decide)
  ⟨h.2.1 (fun _ => .ok ⟨404, str "not found"⟩) exampleClient (str "@a") rfl, h.2.2.2.2.1⟩

/-- C10 as stated fails: for a reply with status 500 and a body of 201 bytes, the excerpt
in the message of `authenticate` is 200 bytes of the body followed by "...", 203 bytes in
all, more than 200. -/
theorem remote_error_excerpt_counterexample :
    authenticate exampleLib (fun _ => .ok ⟨500, List.replicate 201 97⟩) exampleClient
      = (exampleClient,
          some (str "authentication failed: status 500 - "
            ++ (List.replicate 200 97 ++ str "...")))
    ∧ (List.replicate 200 (97 : UInt8) ++ str "...").length = 203
    ∧ ¬ (List.replicate 200 (97 : UInt8) ++ str "...").length ≤ 200 := by
  have hdots : (str "...").length = 3 := by decide
  have h500 : fmtInt 500 = str "500" := by decide
  have hpre : str "authentication failed: status " ++ str "500" ++ str " - "
      = str "authentication failed: status 500 - " := by decide
  refine ⟨?_, ?_, ?_⟩
  · have hm : exampleLib.jsonMarshal (authPayload exampleClient) = .ok (str "payload") := rfl
    have h := authenticate_remote_error exampleLib
      (fun _ => .ok ⟨500, List.replicate 201 97⟩) exampleClient (str "payload") 500
      (List.replicate 201 97) hm rfl (by decide) (by decide)
    have hex : excerpt (List.replicate 201 (97 : UInt8))
        = List.replicate 200 97 ++ str "..." := by
      unfold excerpt
      rw [if_pos (by rw [List.length_replicate]; decide), List.take_replicate]
      rfl
    rw [h, h500, hpre, hex]
  · rw [List.length_append, List.length_replicate, hdots]
  · rw [List.length_append, List.length_replicate, hdots]
    omega

end C10

/-! ## C11: one classification at every call site -/

section C11

/-- A message that starts with one byte differs from a message that starts with another. -/
theorem ne_of_head_ne {a b : GoString} {x y : UInt8} (ha : a.head? = some x)
    (hb : b.head? = some y) (hxy : x ≠ y) : a ≠ b := by
  intro h
  rw [h, hb] at ha
  exact hxy (Option.some.inj ha).symm

/-- The first byte of a message that starts with a non-empty literal. -/
theorem head_append {a : GoString} {x : UInt8} (r : GoString) (ha : a.head? = some x) :
    (a ++ r).head? = some x := by
  cases a with
  | nil => simp at ha
  | cons b t => simpa using ha

/-- A value that is one of three pairwise different outcomes according to a class tells
the class. -/
theorem class_of_outcome {α : Type} {r oB oR oD : α} {cls : ResponseClass}
    (hB : cls = .accessBlocked → r = oB) (hR : cls = .remoteError → r = oR)
    (hD : cls = .success → r = oD)
    (hBR : oB ≠ oR) (hBD : oB ≠ oD) (hRD : oR ≠ oD) :
    (r = oB ↔ cls = .accessBlocked) ∧ (r = oR ↔ cls = .remoteError)
      ∧ (r = oD ↔ cls = .success) := by
  cases cls with
  | success =>
    have h := hD rfl
    subst h
    exact ⟨by simp [Ne.symm hBD], by simp [Ne.symm hRD], by simp⟩
  | accessBlocked =>
    have h := hB rfl
    subst h
    exact ⟨by simp, by simp [hBR], by simp [hBD]⟩
  | remoteError =>
    have h := hR rfl
    subst h
    exact ⟨by simp [Ne.symm hBR], by simp, by simp [hRD]⟩

theorem specClassify_success (status : Int) (body : GoString) :
    specClassify status body = .success ↔ status = 200 := by
  unfold specClassify
  by_cases h : status = 200
  · simp [h]
  · simp only [h, if_false]
    split <;> simp

theorem specClassify_accessBlocked (status : Int) (body : GoString) :
    specClassify status body = .accessBlocked
      ↔ status = 403 ∧ Contains body (str "Cloudflare") = true := by
  unfold specClassify
  by_cases h : status = 200
  · simp [h]
  · simp only [h, if_false]
    split
    · rename_i hb
      simp [hb]
    · rename_i hb
      simp only [reduceCtorEq, false_iff]
      exact hb

theorem specClassify_remoteError (status : Int) (body : GoString) :
    specClassify status body = .remoteError
      ↔ status ≠ 200 ∧ ¬ (status = 403 ∧ Contains body (str "Cloudflare") = true) := by
  unfold specClassify
  by_cases h : status = 200
  · simp [h]
  · simp only [h, if_false]
    split
    · rename_i hb
      simp [hb]
    · rename_i hb
      simp only [true_iff]
      exact ⟨h, hb⟩

/-- The first byte of the message of a remote error is the first byte of its context. -/
theorem remote_head {pre : GoString} {x : UInt8} (h : pre.head? = some x) (status : Int)
    (body : GoString) :
    (pre ++ fmtInt status ++ str " - " ++ excerpt body).head? = some x :=
  head_append _ (head_append _ (head_append _ h))

theorem blockedMessage_head : blockedMessage.head? = some 98 := by decide

/-- What follows the status check in `authenticate` never gives an error whose message
starts like the access-blocked or the remote error. -/
theorem authDecode_ne (lib : Lib) (c c' : Client) (body m : GoString) (x : UInt8)
    (hm : m.head? = some x) (h1 : x ≠ 102) (h2 : x ≠ 110) :
    (c', some m) ≠ authDecode lib c body := by
  have hf : (str "failed to parse auth response: ").head? = some 102 := by decide
  have hn : (str "no access token received").head? = some 110 := by decide
  unfold authDecode
  intro h
  split at h
  · rename_i e _
    simp only [Prod.mk.injEq, Option.some.injEq] at h
    exact ne_of_head_ne hm (head_append e hf) h1 h.2
  · split at h
    · simp only [Prod.mk.injEq, Option.some.injEq] at h
      exact ne_of_head_ne hm hn h2 h.2
    · simp at h

theorem lookupDecode_ne (lib : Lib) (body m : GoString) (x : UInt8)
    (hm : m.head? = some x) (h1 : x ≠ 102) :
    Except.error m ≠ lookupDecode lib body := by
  have hf : (str "failed to parse account data: ").head? = some 102 := by decide
  unfold lookupDecode
  intro h
  split at h
  · rename_i e _
    simp only [Except.error.injEq] at h
    exact ne_of_head_ne hm (head_append e hf) h1 h
  · simp at h

theorem statusesDecode_ne (lib : Lib) (body m : GoString) (x : UInt8)
    (hm : m.head? = some x) (h1 : x ≠ 102) :
    Except.error m ≠ statusesDecode lib body := by
  have hf : (str "failed to parse statuses data: ").head? = some 102 := by decide
  unfold statusesDecode
  intro h
  split at h
  · rename_i e _
    simp only [Except.error.injEq] at h
    exact ne_of_head_ne hm (head_append e hf) h1 h
  · simp at h

/-- The loop issues at least the request of the iteration it starts in. -/
theorem pullLoop_log_length_gt (lib : Lib) (Do : Nat → Request → DoResult) (c : Client)
    (account : Account) (excludeReplies : Bool) (limit : Int) (st : LoopState) :
    st.log.length < (pullLoop lib Do c account excludeReplies limit st).log.length := by
  obtain ⟨rest, h⟩ := (pullLoop_first_failure lib Do c account excludeReplies limit st).1
  rw [h]
  simp only [logAfter, List.length_append, List.length_cons, List.length_nil]
  omega

/-- What follows the status check in an iteration never gives, with the request of this
iteration as the last one, an error whose message starts like the access-blocked or the
remote error. -/
theorem pageDecode_ne (lib : Lib) (Do : Nat → Request → DoResult) (c : Client)
    (account : Account) (excludeReplies : Bool) (limit : Int) (st : LoopState)
    (body m : GoString) (x : UInt8) (hm : m.head? = some x) (h1 : x ≠ 102) :
    (⟨[], some m, logAfter lib c account excludeReplies st⟩ : PullResult)
      ≠ pageDecode lib Do c account excludeReplies limit st body := by
  have hf : (str "failed to parse statuses data: ").head? = some 102 := by decide
  unfold pageDecode
  intro h
  simp only [pageCall] at h
  split at h
  · rename_i e _
    simp only [PullResult.mk.injEq, Option.some.injEq] at h
    exact ne_of_head_ne hm (head_append e hf) h1 h.2.1
  · split at h
    · simp at h
    · split at h
      · simp at h
      · split at h
        · simp at h
        · rename_i page _ _ _ _
          have hlen := congrArg (fun r => r.log.length) h
          have hgt := pullLoop_log_length_gt lib Do c account excludeReplies limit
            ⟨st.allStatuses ++ page,
              (match page.getLast? with
                | some lastStatus => lastStatus.ID
                | none => st.maxID),
              st.pageCounter + 1,
              st.log ++ [{ params := pageParams excludeReplies st.maxID,
                           request := pageRequest lib c account excludeReplies st.maxID }]⟩
          simp only [logAfter, List.length_append, List.length_cons, List.length_nil]
            at hlen hgt
          omega

/-- After a reply with status 200 an iteration is what follows the status check. -/
theorem pullLoop_eq_pageDecode (lib : Lib) (Do : Nat → Request → DoResult) (c : Client)
    (account : Account) (excludeReplies : Bool) (limit : Int) (st : LoopState)
    (body : GoString)
    (hr : pageReply lib Do c account excludeReplies st = .ok ⟨200, body⟩) :
    pullLoop lib Do c account excludeReplies limit st
      = pageDecode lib Do c account excludeReplies limit st body := by
  simp only [pageReply] at hr
  rw [pullLoop]
  simp only [pageCall, hr, pageDecode]
  rw [if_neg (by simp)]

/-- The test of the code for the Cloudflare block fails on a status and a body that the
specification classifies as a remote error. -/
theorem block_test_false {status : Int} {body : GoString}
    (h : specClassify status body = .remoteError) :
    status ≠ 200 ∧ (decide (status = 403) && Contains body (str "Cloudflare")) = false := by
  obtain ⟨h200, hb⟩ := (specClassify_remoteError status body).mp h
  refine ⟨h200, ?_⟩
  rw [Bool.and_eq_false_iff]
  by_cases h403 : status = 403
  · right
    cases hc : Contains body (str "Cloudflare") with
    | false => rfl
    | true => exact absurd ⟨h403, hc⟩ hb
  · left
    simp [h403]

/-- C11. The class of a status and a body is the same function at every call site
(`authenticate`, `Lookup`, each page fetch of `PullStatuses`, `GetStatuses`), the classifier
of the specification: on a reply with this status and body the call fails with the
access-blocked error exactly when the status is 403 and the body contains "Cloudflare",
fails with the remote error (status and body excerpt) exactly when the status is not 200
and that condition does not hold, and goes on to decode the body exactly when the status
is 200. -/
theorem classification_shared (lib : Lib) (status : Int) (body : GoString) :
    (∀ (Do : Request → DoResult) (c : Client) (payloadBytes : GoString),
        lib.jsonMarshal (authPayload c) = .ok payloadBytes →
        Do (authRequest payloadBytes) = .ok ⟨status, body⟩ →
        (authenticate lib Do c = (c, some blockedMessage)
          ↔ specClassify status body = .accessBlocked)
        ∧ (authenticate lib Do c
            = (c, some (str "authentication failed: status " ++ fmtInt status ++ str " - "
                ++ excerpt body))
          ↔ specClassify status body = .remoteError)
        ∧ (authenticate lib Do c = authDecode lib c body
          ↔ specClassify status body = .success))
    ∧ (∀ (Do : Request → DoResult) (c : Client) (username : GoString),
        Do (lookupRequest c username) = .ok ⟨status, body⟩ →
        (Lookup lib Do c username = .error blockedMessage
          ↔ specClassify status body = .accessBlocked)
        ∧ (Lookup lib Do c username
            = .error (str "account lookup failed: status " ++ fmtInt status ++ str " - "
                ++ excerpt body)
          ↔ specClassify status body = .remoteError)
        ∧ (Lookup lib Do c username = lookupDecode lib body
          ↔ specClassify status body = .success))
    ∧ (∀ (Do : Nat → Request → DoResult) (c : Client) (account : Account)
        (excludeReplies : Bool) (limit : Int) (st : LoopState),
        pageReply lib Do c account excludeReplies st = .ok ⟨status, body⟩ →
        (pullLoop lib Do c account excludeReplies limit st
            = ⟨[], some blockedMessage, logAfter lib c account excludeReplies st⟩
          ↔ specClassify status body = .accessBlocked)
        ∧ (pullLoop lib Do c account excludeReplies limit st
            = ⟨[], some (str "statuses request failed: status " ++ fmtInt status ++ str " - "
                ++ excerpt body), logAfter lib c account excludeReplies st⟩
          ↔ specClassify status body = .remoteError)
        ∧ (pullLoop lib Do c account excludeReplies limit st
            = pageDecode lib Do c account excludeReplies limit st body
          ↔ specClassify status body = .success))
    ∧ (∀ (Do : Request → DoResult) (c : Client) (accountID : GoString) (limit : Int),
        Do (statusesRequest c accountID limit) = .ok ⟨status, body⟩ →
        (GetStatuses lib Do c accountID limit = .error blockedMessage
          ↔ specClassify status body = .accessBlocked)
        ∧ (GetStatuses lib Do c accountID limit
            = .error (str "statuses request failed: status " ++ fmtInt status ++ str " - "
                ++ excerpt body)
          ↔ specClassify status body = .remoteError)
        ∧ (GetStatuses lib Do c accountID limit = statusesDecode lib body
          ↔ specClassify status body = .success))
    ∧ (specClassify status body = .accessBlocked
        ↔ status = 403 ∧ Contains body (str "Cloudflare") = true)
    ∧ (specClassify status body = .remoteError
        ↔ status ≠ 200 ∧ ¬ (status = 403 ∧ Contains body (str "Cloudflare") = true))
    ∧ (specClassify status body = .success ↔ status = 200) := by
  have hauth : (str "authentication failed: status ").head? = some 97 := by decide
  have hlook : (str "account lookup failed: status ").head? = some 97 := by decide
  have hstat : (str "statuses request failed: status ").head? = some 115 := by decide
  have hbm := blockedMessage_head
  refine ⟨?_, ?_, ?_, ?_, specClassify_accessBlocked status body,
    specClassify_remoteError status body, specClassify_success status body⟩
  · intro Do c payloadBytes hm hr
    apply class_of_outcome
    · intro hcls
      obtain ⟨h403, hmark⟩ := (specClassify_accessBlocked status body).mp hcls
      subst h403
      simp [authenticate, hm, hr, hmark]
    · intro hcls
      obtain ⟨h200, hb⟩ := block_test_false hcls
      exact authenticate_remote_error lib Do c payloadBytes status body hm hr h200 hb
    · intro hcls
      have h200 := (specClassify_success status body).mp hcls
      subst h200
      simp [authenticate, hm, hr, authDecode]
    · intro h
      simp only [Prod.mk.injEq, Option.some.injEq, true_and] at h
      exact ne_of_head_ne hbm (remote_head hauth status body) (by decide) h
    · exact authDecode_ne lib c c body _ 98 hbm (by decide) (by decide)
    · exact authDecode_ne lib c c body _ 97 (remote_head hauth status body) (by decide)
        (by decide)
  · intro Do c username hr
    apply class_of_outcome
    · intro hcls
      obtain ⟨h403, hmark⟩ := (specClassify_accessBlocked status body).mp hcls
      subst h403
      simp [Lookup, hr, hmark]
    · intro hcls
      obtain ⟨h200, hb⟩ := block_test_false hcls
      simp [Lookup, hr, h200, hb, excerpt]
    · intro hcls
      have h200 := (specClassify_success status body).mp hcls
      subst h200
      simp [Lookup, hr, lookupDecode]
    · intro h
      simp only [Except.error.injEq] at h
      exact ne_of_head_ne hbm (remote_head hlook status body) (by decide) h
    · exact lookupDecode_ne lib body _ 98 hbm (by decide)
    · exact lookupDecode_ne lib body _ 97 (remote_head hlook status body) (by decide)
  · intro Do c account excludeReplies limit st hr
    apply class_of_outcome
    · intro hcls
      obtain ⟨h403, hmark⟩ := (specClassify_accessBlocked status body).mp hcls
      subst h403
      have hnone : decodedPage lib (pageReply lib Do c account excludeReplies st) = none := by
        simp [hr, decodedPage]
      rw [pullLoop_fail lib Do c account excludeReplies limit st hnone, hr]
      simp [pageError, hmark]
    · intro hcls
      obtain ⟨h200, hb⟩ := block_test_false hcls
      have hnone : decodedPage lib (pageReply lib Do c account excludeReplies st) = none := by
        simp [hr, decodedPage, h200]
      rw [pullLoop_fail lib Do c account excludeReplies limit st hnone, hr]
      simp [pageError, h200, hb, excerpt]
    · intro hcls
      have h200 := (specClassify_success status body).mp hcls
      subst h200
      exact pullLoop_eq_pageDecode lib Do c account excludeReplies limit st body hr
    · intro h
      simp only [PullResult.mk.injEq, Option.some.injEq, true_and, and_true] at h
      exact ne_of_head_ne hbm (remote_head hstat status body) (by decide) h
    · exact pageDecode_ne lib Do c account excludeReplies limit st body _ 98 hbm (by decide)
    · exact pageDecode_ne lib Do c account excludeReplies limit st body _ 115
        (remote_head hstat status body) (by decide)
  · intro Do c accountID limit hr
    apply class_of_outcome
    · intro hcls
      obtain ⟨h403, hmark⟩ := (specClassify_accessBlocked status body).mp hcls
      subst h403
      simp [GetStatuses, hr, hmark]
    · intro hcls
      obtain ⟨h200, hb⟩ := block_test_false hcls
      simp [GetStatuses, hr, h200, hb, excerpt]
    · intro hcls
      have h200 := (specClassify_success status body).mp hcls
      subst h200
      simp [GetStatuses, hr, statusesDecode]
    · intro h
      simp only [Except.error.injEq] at h
      exact ne_of_head_ne hbm (remote_head hstat status body) (by decide) h
    · exact statusesDecode_ne lib body _ 98 hbm (by decide)
    · exact statusesDecode_ne lib body _ 115 (remote_head hstat status body) (by decide)

/-- Witness of C11: a reply with status 403 and a Cloudflare page is the access-blocked error
at the lookup, at a page fetch and in `GetStatuses` alike. -/
theorem classification_shared_witness :
    Lookup exampleLib (fun _ => .ok ⟨403, str "<title>Cloudflare</title>"⟩) exampleClient
        (str "@a") = .error blockedMessage
    ∧ pullLoop exampleLib (fun _ _ => .ok ⟨403, str "<title>Cloudflare</title>"⟩)
        exampleClient
        { ID := str "7", Username := [], DisplayName := [], FollowersCount := 0,
          StatusesCount := 0, Verified := false } false 0
        { allStatuses := [], maxID := [], pageCounter := 0, log := [] }
      = ⟨[], some blockedMessage,
          logAfter exampleLib exampleClient
            { ID := str "7", Username := [], DisplayName := [], FollowersCount := 0,
              StatusesCount := 0, Verified := false } false
            { allStatuses := [], maxID := [], pageCounter := 0, log := [] }⟩
    ∧ GetStatuses exampleLib (fun _ => .ok ⟨403, str "<title>Cloudflare</title>"⟩)
        exampleClient (str "7") 10 = .error blockedMessage :=
  have h := classification_shared exampleLib 403 (str "<title>Cloudflare</title>")
  have hc : specClassify 403 (str "<title>Cloudflare</title>") = .accessBlocked := by decide
  ⟨(h.2.1 (fun _ => .ok ⟨403, str "<title>Cloudflare</title>"⟩) exampleClient (str "@a")
      rfl).1.mpr hc,
   (h.2.2.1 (fun _ _ => .ok ⟨403, str "<title>Cloudflare</title>"⟩) exampleClient
      { ID := str "7", Username := [], DisplayName := [], FollowersCount := 0,
        StatusesCount := 0, Verified := false } false 0
      { allStatuses := [], maxID := [], pageCounter := 0, log := [] } rfl).1.mpr hc,
   (h.2.2.2.1 (fun _ => .ok ⟨403, str "<title>Cloudflare</title>"⟩) exampleClient
      (str "7") 10 rfl).1.mpr hc⟩

end C11

end TruthSocial
